import Mathlib

/-!
Menu state machine of the RTC clock appliance: a shallow embedding of `src/tools/src/main.c`.

* The globals `actual_time`, `actual_date`, `new_time`, `new_date`, `menu_index`,
  `button_pressed` and the function-static `cursor` of `fsm_menu` form the record `State`.
  The globals `counter`, `chrono` and `alarm` are never read or written and are left out.
* `char` is an 8-bit machine integer whose signedness is fixed by a compiler flag that is not
  part of the sources; every function therefore takes the flag `sgn` (`true`: plain `char` is
  signed) and every result below is proved for both values.  `int` is 16 bits wide.
  Values are carried as `Int`; each store into a `char` goes through `toChar`, each store into
  an `int` that follows an arithmetic operation goes through `toInt16`.
* C's `/` and `%` truncate towards zero (`Int.tdiv`, `Int.tmod`), `>>` on a signed operand is
  the arithmetic shift, `&` is two's complement conjunction.
* The two-wire bus (`twi.h`) is an external collaborator.  What it answers during one call of
  `fsm_menu` is the record `Bus`; what the program asks of it is returned as a list of `TwiOp`.
* The LCD calls (`lcd_clrscr`, `lcd_gotoxy`, `lcd_puts`, `lcd_command`, with `itoa`) only write
  to the display and to the local `disp_string`; nothing they produce is read back by the
  program, so they do not appear in the embedding.
-/

namespace Cproject

/-! ## Machine integers -/

/-- Store of an integer value into a `char` (8 bits, signed when `sgn`). -/
def toChar (sgn : Bool) (x : Int) : Int :=
  if sgn then (x + 128) % 256 - 128 else x % 256

/-- Store of an integer value into an `int` (16 bits, two's complement). -/
def toInt16 (x : Int) : Int := (x + 32768) % 65536 - 32768

/-- Conversion of an integer value to `uint8_t` (argument of `twi_write`, `twi_start`). -/
def toU8 (x : Int) : Int := x % 256

/-! ## Data model (main.c, lines 56-94) -/

/-- The record `struct Time`. -/
structure Time where
  seconds : Int
  minutes : Int
  hours : Int
  deriving DecidableEq, Repr

/-- The record `struct Date`. -/
structure Date where
  day : Int
  month : Int
  year : Int
  deriving DecidableEq, Repr

/-- The enumeration `button`. -/
inductive Button where
  | NONE
  | UP
  | RIGHT
  | DOWN
  | LEFT
  | SELECT
  deriving DecidableEq, Repr

/-- The globals of main.c together with the static `cursor` of `fsm_menu`. -/
structure State where
  actual_time : Time
  actual_date : Date
  menu_index : Int
  new_time : Time
  new_date : Date
  button_pressed : Button
  cursor : Int
  deriving DecidableEq, Repr

/-! ## Two-wire bus -/

/-- The constant `SLAVE_ADDRESS_DS3231`. -/
def SLAVE_ADDRESS_DS3231 : Int := 0x68

/-- Modelled from the spec: `TWI_WRITE` of twi.h (not among the sources), the direction bit
of a write-mode start. -/
def TWI_WRITE : Int := 0

/-- Modelled from the spec: `TWI_READ` of twi.h (not among the sources), the direction bit
of a read-mode start. -/
def TWI_READ : Int := 1

/-- One call of a twi.h primitive, with the byte handed to it. -/
inductive TwiOp where
  | start (address : Int)
  | write (data : Int)
  | stop
  | read_ack
  | read_nack
  deriving DecidableEq, Repr

/-- What the bus answers during one call of `read_time` or `write_time`: the status returned by
the first `twi_start` and the bytes returned by the three reads (each a `uint8_t`). -/
structure Bus where
  start_status : Nat
  byte1 : Nat
  byte2 : Nat
  byte3 : Nat
  deriving DecidableEq, Repr

/-! ## setup (main.c, lines 121-171) -/

/-- The state left by `setup`; `button_pressed` and `cursor` keep their static initial values. -/
def setup : State :=
  { actual_time := { seconds := 0, minutes := 0, hours := 0 }
    actual_date := { day := 1, month := 1, year := 2000 }
    new_time := { seconds := 0, minutes := 0, hours := 12 }
    new_date := { day := 1, month := 1, year := 2000 }
    menu_index := 300
    button_pressed := Button.NONE
    cursor := 0 }

/-! ## read_time and write_time (main.c, lines 177-225) -/

/-- The expression `((value >> 4) * 10) + (value & 0x0F)` of `read_time`, stored in a `char`. -/
def bcd_decode (sgn : Bool) (value : Int) : Int :=
  toChar sgn (((value >>> 4) * 10) + Int.land value 0x0F)

/-- The expression `((x / 10) << 4) + (x % 10)` of `write_time`, stored in the `char value`. -/
def bcd_encode (sgn : Bool) (x : Int) : Int :=
  toChar sgn (((Int.tdiv x 10) <<< (4 : Int)) + Int.tmod x 10)

/-- The function `read_time`. -/
def read_time (sgn : Bool) (bus : Bus) (s : State) : State × List TwiOp :=
  let twi_status := toChar sgn bus.start_status
  if twi_status = 0 then
    let value1 := toChar sgn bus.byte1
    let value2 := toChar sgn bus.byte2
    let value3 := toChar sgn bus.byte3
    ({ s with actual_time :=
          { seconds := bcd_decode sgn value1
            minutes := bcd_decode sgn value2
            hours := bcd_decode sgn value3 } },
     [TwiOp.start (toU8 ((SLAVE_ADDRESS_DS3231 <<< (1 : Int)) + TWI_WRITE)),
      TwiOp.write (toU8 0x00),
      TwiOp.stop,
      TwiOp.start (toU8 ((SLAVE_ADDRESS_DS3231 <<< (1 : Int)) + TWI_READ)),
      TwiOp.read_ack,
      TwiOp.read_ack,
      TwiOp.read_nack,
      TwiOp.stop])
  else
    (s, [TwiOp.start (toU8 ((SLAVE_ADDRESS_DS3231 <<< (1 : Int)) + TWI_WRITE))])

/-- The function `write_time`; it changes no global, so only the bus calls are returned. -/
def write_time (sgn : Bool) (bus : Bus) (s : State) : List TwiOp :=
  let twi_status := toChar sgn bus.start_status
  if twi_status = 0 then
    [TwiOp.start (toU8 ((SLAVE_ADDRESS_DS3231 <<< (1 : Int)) + TWI_WRITE)),
     TwiOp.write (toU8 0x00),
     TwiOp.write (toU8 0),
     TwiOp.write (toU8 (bcd_encode sgn s.new_time.minutes)),
     TwiOp.write (toU8 (bcd_encode sgn s.new_time.hours)),
     TwiOp.stop]
  else
    [TwiOp.start (toU8 ((SLAVE_ADDRESS_DS3231 <<< (1 : Int)) + TWI_WRITE))]

/-- The data bytes handed to `twi_write`, in order. -/
def written_bytes : List TwiOp → List Int
  | [] => []
  | TwiOp.write b :: rest => b :: written_bytes rest
  | _ :: rest => written_bytes rest

/-! ## ISR(ADC_vect) (main.c, lines 248-268) -/

/-- The interrupt handler `ISR(ADC_vect)`; `adc` is the content of the ADC data register, read
into the `uint16_t value`. -/
def ISR_ADC (adc : Nat) (s : State) : State :=
  let value := adc % 65536
  if value ≤ 20 then { s with button_pressed := Button.RIGHT }
  else if value ≥ 82 ∧ value ≤ 122 then { s with button_pressed := Button.UP }
  else if value ≥ 226 ∧ value ≤ 266 then { s with button_pressed := Button.DOWN }
  else if value ≥ 383 ∧ value ≤ 423 then { s with button_pressed := Button.LEFT }
  else if value ≥ 631 ∧ value ≤ 671 then { s with button_pressed := Button.SELECT }
  else { s with button_pressed := Button.NONE }

/-! ## fsm_menu (main.c, lines 283-620) -/

/-- Case 300 of `fsm_menu`: date and time display. -/
def case_300 (sgn : Bool) (bus : Bus) (s : State) : State × List TwiOp :=
  let r := read_time sgn bus s
  if r.1.button_pressed = Button.UP ∨ r.1.button_pressed = Button.DOWN then
    ({ r.1 with menu_index := 310 }, r.2)
  else r

/-- Cases 310, 320 and 330 of `fsm_menu`: a menu entry with the targets of UP and DOWN. -/
def case_menu (up down : Int) (s : State) : State :=
  if s.button_pressed = Button.UP then { s with menu_index := up }
  else if s.button_pressed = Button.DOWN then { s with menu_index := down }
  else if s.button_pressed = Button.LEFT then { s with menu_index := 300 }
  else s

/-- Case 340 of `fsm_menu`: menu entry "Set time". -/
def case_340 (s : State) : State :=
  if s.button_pressed = Button.UP then { s with menu_index := 330 }
  else if s.button_pressed = Button.DOWN then { s with menu_index := 350 }
  else if s.button_pressed = Button.LEFT then { s with menu_index := 300 }
  else if s.button_pressed = Button.SELECT then
    { s with
      menu_index := 341
      cursor := 0
      new_time :=
        { seconds := s.actual_time.seconds
          minutes := s.actual_time.minutes
          hours := s.actual_time.hours } }
  else s

/-- Case 342 of `fsm_menu`: set time, modify values. -/
def case_342 (sgn : Bool) (s : State) : State :=
  if s.button_pressed = Button.LEFT then
    { s with cursor := toChar sgn (Int.tmod (s.cursor + 5 - 1) 5) }
  else if s.button_pressed = Button.RIGHT then
    { s with cursor := toChar sgn (Int.tmod (s.cursor + 1) 5) }
  else if s.button_pressed = Button.UP then
    if s.cursor = 0 ∨ s.cursor = 1 then
      { s with
        new_time := { s.new_time with hours := toChar sgn (Int.tmod (s.new_time.hours + 1) 24) }
        menu_index := 341 }
    else if s.cursor = 3 ∨ s.cursor = 4 then
      { s with
        new_time :=
          { s.new_time with minutes := toChar sgn (Int.tmod (s.new_time.minutes + 1) 60) }
        menu_index := 341 }
    else s
  else if s.button_pressed = Button.DOWN then
    if s.cursor = 0 ∨ s.cursor = 1 then
      { s with
        new_time :=
          { s.new_time with hours := toChar sgn (Int.tmod (s.new_time.hours + 24 - 1) 24) }
        menu_index := 341 }
    else if s.cursor = 3 ∨ s.cursor = 4 then
      { s with
        new_time :=
          { s.new_time with minutes := toChar sgn (Int.tmod (s.new_time.minutes + 60 - 1) 60) }
        menu_index := 341 }
    else s
  else if s.button_pressed = Button.SELECT then { s with menu_index := 110 }
  else s

/-- Case 350 of `fsm_menu`: menu entry "Set date". -/
def case_350 (s : State) : State :=
  if s.button_pressed = Button.UP then { s with menu_index := 340 }
  else if s.button_pressed = Button.DOWN then { s with menu_index := 310 }
  else if s.button_pressed = Button.LEFT then { s with menu_index := 300 }
  else if s.button_pressed = Button.SELECT then
    { s with
      menu_index := 351
      cursor := 0
      new_date :=
        { day := s.actual_date.day
          month := s.actual_date.month
          year := s.actual_date.year } }
  else s

/-- Case 352, button UP, cursor on the day (main.c, lines 536-555): the new `new_date.day`. -/
def day_up (sgn : Bool) (d : Date) : Int :=
  let day := toChar sgn (d.day + 1)
  if d.month = 4 ∨ d.month = 6 ∨ d.month = 9 ∨ d.month = 11 then
    if day > 30 then 1 else day
  else if d.month = 2 then
    if Int.tmod d.year 4 = 0 ∧ day > 29 then 1
    else if day > 28 then 1
    else day
  else
    if day > 31 then 1 else day

/-- Case 352, button DOWN, cursor on the day (main.c, lines 577-593): the new `new_date.day`. -/
def day_down (sgn : Bool) (d : Date) : Int :=
  let day := toChar sgn (d.day - 1)
  if day < 1 then
    if d.month = 4 ∨ d.month = 6 ∨ d.month = 9 ∨ d.month = 11 then 30
    else if d.month = 2 then
      if Int.tmod d.year 4 = 0 then 29
      else if day < 1 then 28
      else day
    else 31
  else day

/-- Case 352 of `fsm_menu`: set date, modify values. -/
def case_352 (sgn : Bool) (s : State) : State :=
  if s.button_pressed = Button.LEFT then
    { s with cursor := toChar sgn (Int.tmod (s.cursor + 10 - 1) 10) }
  else if s.button_pressed = Button.RIGHT then
    { s with cursor := toChar sgn (Int.tmod (s.cursor + 1) 10) }
  else if s.button_pressed = Button.UP then
    if s.cursor = 0 ∨ s.cursor = 1 then
      { s with
        new_date := { s.new_date with day := day_up sgn s.new_date }
        menu_index := 351 }
    else if s.cursor = 3 ∨ s.cursor = 4 then
      let month := toChar sgn (s.new_date.month + 1)
      { s with
        new_date := { s.new_date with month := if month > 12 then 1 else month }
        menu_index := 351 }
    else if s.cursor > 5 ∧ s.cursor < 10 then
      let year := toInt16 (s.new_date.year + 1)
      { s with
        new_date := { s.new_date with year := if year > 2099 then 0 else year }
        menu_index := 351 }
    else s
  else if s.button_pressed = Button.DOWN then
    if s.cursor = 0 ∨ s.cursor = 1 then
      { s with
        new_date := { s.new_date with day := day_down sgn s.new_date }
        menu_index := 351 }
    else if s.cursor = 3 ∨ s.cursor = 4 then
      let month := toChar sgn (s.new_date.month - 1)
      { s with
        new_date := { s.new_date with month := if month < 1 then 12 else month }
        menu_index := 351 }
    else if s.cursor > 5 ∧ s.cursor < 10 then
      let year := toInt16 (s.new_date.year - 1)
      { s with
        new_date := { s.new_date with year := if year < 2000 then 2099 else year }
        menu_index := 351 }
    else s
  else if s.button_pressed = Button.SELECT then { s with menu_index := 210 }
  else s

/-- The function `fsm_menu`: one tick of the menu state machine.  Returns the new globals and
the calls made on the two-wire bus. -/
def fsm_menu (sgn : Bool) (bus : Bus) (s : State) : State × List TwiOp :=
  if s.menu_index = 100 then
    let r := read_time sgn bus s
    ({ r.1 with menu_index := 300 }, r.2)
  else if s.menu_index = 110 then
    ({ s with menu_index := 300 }, write_time sgn bus s)
  else if s.menu_index = 200 then (s, [])
  else if s.menu_index = 210 then
    ({ s with
       actual_date :=
         { day := s.new_date.day
           month := s.new_date.month
           year := s.new_date.year }
       menu_index := 300 }, [])
  else if s.menu_index = 300 then case_300 sgn bus s
  else if s.menu_index = 310 then (case_menu 350 320 s, [])
  else if s.menu_index = 320 then (case_menu 310 330 s, [])
  else if s.menu_index = 330 then (case_menu 320 340 s, [])
  else if s.menu_index = 340 then (case_340 s, [])
  else if s.menu_index = 341 then ({ s with menu_index := 342 }, [])
  else if s.menu_index = 342 then (case_342 sgn s, [])
  else if s.menu_index = 350 then (case_350 s, [])
  else if s.menu_index = 351 then ({ s with menu_index := 352 }, [])
  else if s.menu_index = 352 then (case_352 sgn s, [])
  else ({ s with menu_index := 300 }, [])

/-! ## The two interrupt sources -/

/-- One interrupt: a completed conversion with its sample, or a timer overflow with what the
bus answers during it. -/
inductive Event where
  | adc (sample : Nat)
  | tick (bus : Bus)
  deriving DecidableEq, Repr

/-- The effect of one interrupt on the globals: `ISR(ADC_vect)` or `ISR(TIMER1_OVF_vect)`. -/
def step (sgn : Bool) (e : Event) (s : State) : State :=
  match e with
  | Event.adc sample => ISR_ADC sample s
  | Event.tick bus => (fsm_menu sgn bus s).1

/-- The effect of a sequence of interrupts, oldest first. -/
def run (sgn : Bool) : List Event → State → State
  | [], s => s
  | e :: es, s => run sgn es (step sgn e s)

/-- The states the machine can be in after `setup` and any sequence of interrupts. -/
inductive Reachable (sgn : Bool) : State → Prop where
  | init : Reachable sgn setup
  | next (e : Event) (s : State) : Reachable sgn s → Reachable sgn (step sgn e s)

/-- The interrupts of consecutive timer overflows, one for each of the given bus answers. -/
def ticks (buses : List Bus) : List Event := buses.map Event.tick

/-- The menu states that `fsm_menu` names in a `case` label. -/
def named_states : List Int :=
  [100, 110, 200, 210, 300, 310, 320, 330, 340, 341, 342, 350, 351, 352]

/-- The five navigation states: Alarms, Chronometer, Counter, SetTime, SetDate. -/
def navigation_states : List Int := [310, 320, 330, 340, 350]

/-- The ranges that the date arithmetic of case 352 keeps. -/
def date_in_range (d : Date) : Prop :=
  1 ≤ d.month ∧ d.month ≤ 12 ∧ 1 ≤ d.day ∧ d.day ≤ 31 ∧ 0 ≤ d.year ∧ d.year ≤ 2099

instance (d : Date) : Decidable (date_in_range d) := by
  unfold date_in_range; infer_instance

/-! ## Inputs used in the examples -/

/-- A bus whose start is rejected (non-zero status). -/
def bus_down : Bus := { start_status := 1, byte1 := 0, byte2 := 0, byte3 := 0 }

/-- A sample that `ISR(ADC_vect)` classifies as DOWN. -/
def sample_down : Nat := 240

/-- A sample that `ISR(ADC_vect)` classifies as SELECT. -/
def sample_select : Nat := 650

/-- A sample that `ISR(ADC_vect)` classifies as RIGHT. -/
def sample_right : Nat := 0

/-- A sample that `ISR(ADC_vect)` classifies as UP. -/
def sample_up : Nat := 95

/-- An interrupt sequence after `setup`: walk DOWN to "Set date", SELECT, DOWN on the day
(1 becomes 31), RIGHT three times, UP on the month (1 becomes 2), SELECT, commit. -/
def trace_31_february : List Event :=
  [Event.adc sample_down, Event.tick bus_down, Event.tick bus_down, Event.tick bus_down,
   Event.tick bus_down, Event.tick bus_down,
   Event.adc sample_select, Event.tick bus_down,
   Event.adc sample_down, Event.tick bus_down, Event.tick bus_down,
   Event.adc sample_right, Event.tick bus_down, Event.tick bus_down, Event.tick bus_down,
   Event.tick bus_down,
   Event.adc sample_up, Event.tick bus_down,
   Event.adc sample_select, Event.tick bus_down, Event.tick bus_down, Event.tick bus_down]

/-- An interrupt sequence after `setup`: walk DOWN to "Set date", SELECT, RIGHT six times,
DOWN on the year (2000 becomes 2099), UP on the year (2099 becomes 0), SELECT, commit. -/
def trace_year_0 : List Event :=
  [Event.adc sample_down, Event.tick bus_down, Event.tick bus_down, Event.tick bus_down,
   Event.tick bus_down, Event.tick bus_down,
   Event.adc sample_select, Event.tick bus_down,
   Event.adc sample_right, Event.tick bus_down, Event.tick bus_down, Event.tick bus_down,
   Event.tick bus_down, Event.tick bus_down, Event.tick bus_down, Event.tick bus_down,
   Event.adc sample_down, Event.tick bus_down,
   Event.adc sample_up, Event.tick bus_down, Event.tick bus_down,
   Event.adc sample_select, Event.tick bus_down, Event.tick bus_down, Event.tick bus_down]

/-- A bus whose start is accepted and whose three reads return zero. -/
def bus_up : Bus := { start_status := 0, byte1 := 0, byte2 := 0, byte3 := 0 }

/-- A commit-time state: the clock shows 23:59:59 and the edit buffer, loaded from it, has had
its hours adjusted UP once (23 becomes 0). -/
def state_commit_midnight : State :=
  { setup with
    actual_time := { seconds := 59, minutes := 59, hours := 23 }
    new_time := { seconds := 59, minutes := 59, hours := 0 }
    menu_index := 110
    button_pressed := Button.SELECT }

/-- The state `setup` leaves, moved to menu state `m` with button symbol `b`. -/
def state_at (m : Int) (b : Button) : State :=
  { setup with menu_index := m, button_pressed := b }

/-- A commit-time state whose edit buffer holds 00:00:30. -/
def state_commit_30_seconds : State :=
  { setup with
    new_time := { seconds := 30, minutes := 0, hours := 0 }
    menu_index := 110
    button_pressed := Button.SELECT }

/-! ## Definitions taken from the specification -/

/-- The function `days_in_month` as the specification words it: 31 for months 1, 3, 5, 7, 8, 10
and 12, 30 for months 4, 6, 9 and 11, and for February 29 when `year % 4 == 0`, else 28. -/
def days_in_month (month year : Int) : Int :=
  if month = 4 ∨ month = 6 ∨ month = 9 ∨ month = 11 then 30
  else if month = 2 then (if year % 4 = 0 then 29 else 28)
  else 31

/-- The declared ranges of a date: month 1-12, year 2000-2099, day 1 to `days_in_month`. -/
def valid_date (d : Date) : Prop :=
  1 ≤ d.month ∧ d.month ≤ 12 ∧ 2000 ≤ d.year ∧ d.year ≤ 2099 ∧
    1 ≤ d.day ∧ d.day ≤ days_in_month d.month d.year

instance (d : Date) : Decidable (valid_date d) := by
  unfold valid_date; infer_instance

/-- The encoding as the specification words it: `((value/10) << 4) | (value % 10)`. -/
def bcd_spec (value : Nat) : Nat := ((value / 10) <<< 4) ||| (value % 10)

/-- The declared ranges of a time: seconds 0-59, minutes 0-59, hours 0-23. -/
def time_in_range (t : Time) : Prop :=
  0 ≤ t.seconds ∧ t.seconds ≤ 59 ∧ 0 ≤ t.minutes ∧ t.minutes ≤ 59 ∧ 0 ≤ t.hours ∧ t.hours ≤ 23

instance (t : Time) : Decidable (time_in_range t) := by
  unfold time_in_range; infer_instance

/-- The bytes that are BCD encodings of the values 0 to `limit`. -/
def bcd_bytes (limit : Nat) : List Nat := (List.range (limit + 1)).map bcd_spec

/-- The assumption on the RTC: when the start is accepted, the three bytes read are BCD
encodings of seconds in 0..59, minutes in 0..59 and hours in 0..23. -/
def bus_bcd (sgn : Bool) (bus : Bus) : Prop :=
  toChar sgn bus.start_status = 0 →
    bus.byte1 ∈ bcd_bytes 59 ∧ bus.byte2 ∈ bcd_bytes 59 ∧ bus.byte3 ∈ bcd_bytes 23

instance (sgn : Bool) (bus : Bus) : Decidable (bus_bcd sgn bus) := by
  unfold bus_bcd; infer_instance

/-- The assumption on the RTC, for one interrupt: a sample is unconstrained. -/
def event_bcd (sgn : Bool) : Event → Prop
  | Event.adc _ => True
  | Event.tick bus => bus_bcd sgn bus

instance (sgn : Bool) (e : Event) : Decidable (event_bcd sgn e) :=
  match e with
  | Event.adc _ => isTrue trivial
  | Event.tick bus => inferInstanceAs (Decidable (bus_bcd sgn bus))

/-- The states the machine can be in after `setup` and any sequence of interrupts during which
the RTC answers as `bus_bcd` assumes. -/
inductive ReachableBcd (sgn : Bool) : State → Prop where
  | init : ReachableBcd sgn setup
  | next (e : Event) (s : State) :
      ReachableBcd sgn s → event_bcd sgn e → ReachableBcd sgn (step sgn e s)

/-- The menu states of the reachable-state invariant. -/
def live_states : List Int :=
  [300, 310, 320, 330, 340, 341, 342, 110, 350, 351, 352, 210]

/-- The reachable-state invariant of the menu machine: the menu state is one of `live_states`,
the cursor is in 0..4 in states 341 and 342 and in 0..9 in states 351 and 352. -/
def menu_invariant (s : State) : Prop :=
  s.menu_index ∈ live_states ∧
  (s.menu_index = 341 ∨ s.menu_index = 342 → 0 ≤ s.cursor ∧ s.cursor ≤ 4) ∧
  (s.menu_index = 351 ∨ s.menu_index = 352 → 0 ≤ s.cursor ∧ s.cursor ≤ 9)

instance (s : State) : Decidable (menu_invariant s) := by
  unfold menu_invariant; infer_instance

/-- A bus whose start is accepted and whose reads return 0x59, 0x23, 0x12: the RTC at
12:23:59. -/
def bus_12_23_59 : Bus := { start_status := 0, byte1 := 0x59, byte2 := 0x23, byte3 := 0x12 }

/-- A Display state whose clock shows 07:08:09 on 15/06/2021. -/
def state_display : State :=
  { setup with
    actual_time := { seconds := 9, minutes := 8, hours := 7 }
    actual_date := { day := 15, month := 6, year := 2021 }
    button_pressed := Button.NONE }

/-- The SetTime navigation state with SELECT held: the clock shows 07:08:09, the edit buffer
still holds the 00:00:12 of `setup` and the cursor was left on column 3. -/
def state_hold_select : State :=
  { state_display with menu_index := 340, button_pressed := Button.SELECT, cursor := 3 }

/-- A SetDate.Edit state with the given button symbol and cursor, whose edit buffer holds
31/12/2099 while the authoritative date is 15/06/2021. -/
def state_edit_date (b : Button) (c : Int) : State :=
  { state_display with
    new_date := { day := 31, month := 12, year := 2099 }
    menu_index := 352
    button_pressed := b
    cursor := c }

/-- A SetTime.Edit state with the given button symbol and cursor, whose edit buffer holds
23:59:09 while the clock shows 07:08:09. -/
def state_edit_time (b : Button) (c : Int) : State :=
  { state_display with
    new_time := { seconds := 9, minutes := 59, hours := 23 }
    menu_index := 342
    button_pressed := b
    cursor := c }


/-! ## Arithmetic of the machine integers -/

theorem toChar_small (sgn : Bool) (x : Int) (h0 : 0 ≤ x) (h1 : x ≤ 127) : toChar sgn x = x := by
  unfold toChar
  split <;> omega

theorem toInt16_small (x : Int) (h0 : -32768 ≤ x) (h1 : x ≤ 32767) : toInt16 x = x := by
  unfold toInt16
  omega

theorem tmod_nonneg (a b : Int) (ha : 0 ≤ a) (hb : 0 ≤ b) : Int.tmod a b = a % b :=
  Int.tmod_eq_emod ha hb

/-! ## Frame of read_time -/

theorem read_time_frame (sgn : Bool) (bus : Bus) (s : State) :
    (read_time sgn bus s).1 = { s with actual_time := (read_time sgn bus s).1.actual_time } := by
  simp only [read_time]
  split_ifs <;> rfl

theorem read_time_button (sgn : Bool) (bus : Bus) (s : State) :
    (read_time sgn bus s).1.button_pressed = s.button_pressed := by
  rw [read_time_frame]

theorem read_time_menu_index (sgn : Bool) (bus : Bus) (s : State) :
    (read_time sgn bus s).1.menu_index = s.menu_index := by
  rw [read_time_frame]

/-! ## Case analysis of one tick -/

theorem fsm_menu_cases (P : State × List TwiOp → Prop) (sgn : Bool) (bus : Bus) (s : State)
    (h100 : s.menu_index = 100 →
      P ({ (read_time sgn bus s).1 with menu_index := 300 }, (read_time sgn bus s).2))
    (h110 : s.menu_index = 110 → P ({ s with menu_index := 300 }, write_time sgn bus s))
    (h200 : s.menu_index = 200 → P (s, []))
    (h210 : s.menu_index = 210 →
      P ({ s with
           actual_date :=
             { day := s.new_date.day, month := s.new_date.month, year := s.new_date.year }
           menu_index := 300 }, []))
    (h300 : s.menu_index = 300 → P (case_300 sgn bus s))
    (h310 : s.menu_index = 310 → P (case_menu 350 320 s, []))
    (h320 : s.menu_index = 320 → P (case_menu 310 330 s, []))
    (h330 : s.menu_index = 330 → P (case_menu 320 340 s, []))
    (h340 : s.menu_index = 340 → P (case_340 s, []))
    (h341 : s.menu_index = 341 → P ({ s with menu_index := 342 }, []))
    (h342 : s.menu_index = 342 → P (case_342 sgn s, []))
    (h350 : s.menu_index = 350 → P (case_350 s, []))
    (h351 : s.menu_index = 351 → P ({ s with menu_index := 352 }, []))
    (h352 : s.menu_index = 352 → P (case_352 sgn s, []))
    (hdefault : s.menu_index ∉ named_states → P ({ s with menu_index := 300 }, [])) :
    P (fsm_menu sgn bus s) := by
  unfold fsm_menu
  by_cases c100 : s.menu_index = 100
  · rw [if_pos c100]; exact h100 c100
  rw [if_neg c100]
  by_cases c110 : s.menu_index = 110
  · rw [if_pos c110]; exact h110 c110
  rw [if_neg c110]
  by_cases c200 : s.menu_index = 200
  · rw [if_pos c200]; exact h200 c200
  rw [if_neg c200]
  by_cases c210 : s.menu_index = 210
  · rw [if_pos c210]; exact h210 c210
  rw [if_neg c210]
  by_cases c300 : s.menu_index = 300
  · rw [if_pos c300]; exact h300 c300
  rw [if_neg c300]
  by_cases c310 : s.menu_index = 310
  · rw [if_pos c310]; exact h310 c310
  rw [if_neg c310]
  by_cases c320 : s.menu_index = 320
  · rw [if_pos c320]; exact h320 c320
  rw [if_neg c320]
  by_cases c330 : s.menu_index = 330
  · rw [if_pos c330]; exact h330 c330
  rw [if_neg c330]
  by_cases c340 : s.menu_index = 340
  · rw [if_pos c340]; exact h340 c340
  rw [if_neg c340]
  by_cases c341 : s.menu_index = 341
  · rw [if_pos c341]; exact h341 c341
  rw [if_neg c341]
  by_cases c342 : s.menu_index = 342
  · rw [if_pos c342]; exact h342 c342
  rw [if_neg c342]
  by_cases c350 : s.menu_index = 350
  · rw [if_pos c350]; exact h350 c350
  rw [if_neg c350]
  by_cases c351 : s.menu_index = 351
  · rw [if_pos c351]; exact h351 c351
  rw [if_neg c351]
  by_cases c352 : s.menu_index = 352
  · rw [if_pos c352]; exact h352 c352
  rw [if_neg c352]
  apply hdefault
  simp only [named_states, List.mem_cons, List.mem_singleton, List.not_mem_nil, or_false]
  omega

/-! ## C1: day increment -/

/-- C1, at the input where the code departs from it: in SetDate.Edit (state 352) with the
cursor on the day and button UP, the edit date 28/02/2000 (a year with `year % 4 == 0`, so that
`days_in_month` is 29) gets day 1 and not day 29. -/
theorem C1_leap_february_day_28_goes_to_1 :
    days_in_month 2 2000 = 29 ∧
    ∀ (sgn : Bool) (bus : Bus) (at_time : Time) (at_date : Date) (nt : Time),
      (fsm_menu sgn bus
        { actual_time := at_time, actual_date := at_date, menu_index := 352, new_time := nt,
          new_date := { day := 28, month := 2, year := 2000 },
          button_pressed := Button.UP, cursor := 0 }).1.new_date
        = { day := 1, month := 2, year := 2000 } := by
  refine ⟨by decide, ?_⟩
  intro sgn bus at_time at_date nt
  cases sgn <;> rfl

theorem day_up_elsewhere (sgn : Bool) (d : Date) (hv : valid_date d)
    (hne : ¬ (d.month = 2 ∧ d.year % 4 = 0 ∧ d.day = 28)) :
    day_up sgn d = if d.day < days_in_month d.month d.year then d.day + 1 else 1 := by
  obtain ⟨hm0, hm1, hy0, hy1, hd0, hd1⟩ := hv
  have hd31 : d.day ≤ 31 := by
    unfold days_in_month at hd1
    split_ifs at hd1 <;> omega
  unfold day_up
  unfold days_in_month at hd1 ⊢
  rw [toChar_small sgn (d.day + 1) (by omega) (by omega),
    tmod_nonneg d.year 4 (by omega) (by omega)]
  simp only []
  split_ifs at hd1 ⊢ <;> omega

/-! ## C2: ranges of the date -/

theorem reachable_run (sgn : Bool) (es : List Event) :
    ∀ s, Reachable sgn s → Reachable sgn (run sgn es s) := by
  induction es with
  | nil => intro s h; exact h
  | cons e es ih => intro s h; exact ih _ (Reachable.next e s h)

theorem day_up_range (sgn : Bool) (d : Date) (h0 : 1 ≤ d.day) (h1 : d.day ≤ 31) :
    1 ≤ day_up sgn d ∧ day_up sgn d ≤ 31 := by
  unfold day_up
  rw [toChar_small sgn (d.day + 1) (by omega) (by omega)]
  simp only []
  split_ifs <;> omega

theorem day_down_range (sgn : Bool) (d : Date) (h0 : 1 ≤ d.day) (h1 : d.day ≤ 31) :
    1 ≤ day_down sgn d ∧ day_down sgn d ≤ 31 := by
  unfold day_down
  rw [toChar_small sgn (d.day - 1) (by omega) (by omega)]
  simp only []
  split_ifs <;> omega

theorem case_352_range (sgn : Bool) (s : State) (h : date_in_range s.new_date) :
    date_in_range (case_352 sgn s).new_date ∧ (case_352 sgn s).actual_date = s.actual_date := by
  obtain ⟨hm0, hm1, hd0, hd1, hy0, hy1⟩ := h
  have hu := day_up_range sgn s.new_date hd0 hd1
  have hd := day_down_range sgn s.new_date hd0 hd1
  unfold case_352 date_in_range
  rw [toChar_small sgn (s.new_date.month + 1) (by omega) (by omega),
    toChar_small sgn (s.new_date.month - 1) (by omega) (by omega),
    toInt16_small (s.new_date.year + 1) (by omega) (by omega),
    toInt16_small (s.new_date.year - 1) (by omega) (by omega)]
  simp only []
  split_ifs <;> simp only [and_true] <;> omega

theorem fsm_menu_date_range (sgn : Bool) (bus : Bus) (s : State)
    (h : date_in_range s.actual_date ∧ date_in_range s.new_date) :
    date_in_range (fsm_menu sgn bus s).1.actual_date ∧
      date_in_range (fsm_menu sgn bus s).1.new_date := by
  obtain ⟨ha, hn⟩ := h
  have h352 := case_352_range sgn s hn
  apply fsm_menu_cases (fun r => date_in_range r.1.actual_date ∧ date_in_range r.1.new_date)
  · intro _; simp only [read_time]; split_ifs <;> exact ⟨ha, hn⟩
  · intro _; exact ⟨ha, hn⟩
  · intro _; exact ⟨ha, hn⟩
  · intro _; exact ⟨hn, hn⟩
  · intro _; simp only [case_300, read_time]; split_ifs <;> exact ⟨ha, hn⟩
  · intro _; simp only [case_menu]; split_ifs <;> exact ⟨ha, hn⟩
  · intro _; simp only [case_menu]; split_ifs <;> exact ⟨ha, hn⟩
  · intro _; simp only [case_menu]; split_ifs <;> exact ⟨ha, hn⟩
  · intro _; simp only [case_340]; split_ifs <;> exact ⟨ha, hn⟩
  · intro _; exact ⟨ha, hn⟩
  · intro _; simp only [case_342]; split_ifs <;> exact ⟨ha, hn⟩
  · intro _; simp only [case_350]; split_ifs <;> first | exact ⟨ha, hn⟩ | exact ⟨ha, ha⟩
  · intro _; exact ⟨ha, hn⟩
  · intro _; simp only []; rw [h352.2]; exact ⟨ha, h352.1⟩
  · intro _; exact ⟨ha, hn⟩

theorem step_date_range (sgn : Bool) (e : Event) (s : State)
    (h : date_in_range s.actual_date ∧ date_in_range s.new_date) :
    date_in_range (step sgn e s).actual_date ∧ date_in_range (step sgn e s).new_date := by
  cases e with
  | adc sample =>
    simp only [step, ISR_ADC]
    split_ifs <;> exact h
  | tick bus => exact fsm_menu_date_range sgn bus s h

theorem reachable_date_range (sgn : Bool) (s : State) (h : Reachable sgn s) :
    date_in_range s.actual_date ∧ date_in_range s.new_date := by
  induction h with
  | init => exact ⟨by decide, by decide⟩
  | next e s _ ih => exact step_date_range sgn e s ih

/-- C2 as stated fails: after `setup`, the interrupt sequence `trace_31_february` leaves the
authoritative date at 31/02/2000 and `trace_year_0` leaves its year at 0, for either signedness
of `char`; so not every reachable state has a date within the declared ranges. -/
theorem C2_invalid_date_reachable :
    (run true trace_31_february setup).actual_date = { day := 31, month := 2, year := 2000 } ∧
    (run false trace_31_february setup).actual_date = { day := 31, month := 2, year := 2000 } ∧
    days_in_month 2 2000 = 29 ∧
    (run true trace_year_0 setup).actual_date = { day := 1, month := 1, year := 0 } ∧
    (run false trace_year_0 setup).actual_date = { day := 1, month := 1, year := 0 } ∧
    ¬ (∀ s, Reachable true s → valid_date s.actual_date) ∧
    ¬ (∀ s, Reachable false s → valid_date s.actual_date) := by
  refine ⟨by decide, by decide, by decide, by decide, by decide, ?_, ?_⟩
  · intro h
    have h1 := h _ (reachable_run true trace_31_february setup Reachable.init)
    revert h1
    decide
  · intro h
    have h1 := h _ (reachable_run false trace_31_february setup Reachable.init)
    revert h1
    decide

/-- C2 as amended: in every state reachable from `setup` by any sequence of samples and ticks,
under any bus answers, the authoritative date has month in 1..12, day in 1..31 and year in
0..2099 (and so has the edit buffer). -/
theorem C2_date_range_invariant (sgn : Bool) (s : State) (h : Reachable sgn s) :
    (1 ≤ s.actual_date.month ∧ s.actual_date.month ≤ 12 ∧
      1 ≤ s.actual_date.day ∧ s.actual_date.day ≤ 31 ∧
      0 ≤ s.actual_date.year ∧ s.actual_date.year ≤ 2099) ∧
    (1 ≤ s.new_date.month ∧ s.new_date.month ≤ 12 ∧
      1 ≤ s.new_date.day ∧ s.new_date.day ≤ 31 ∧
      0 ≤ s.new_date.year ∧ s.new_date.year ≤ 2099) :=
  reachable_date_range sgn s h

theorem C2_date_range_invariant_witness :
    Reachable true (run true trace_31_february setup) ∧
    ((1 ≤ (run true trace_31_february setup).actual_date.month ∧
      (run true trace_31_february setup).actual_date.month ≤ 12 ∧
      1 ≤ (run true trace_31_february setup).actual_date.day ∧
      (run true trace_31_february setup).actual_date.day ≤ 31 ∧
      0 ≤ (run true trace_31_february setup).actual_date.year ∧
      (run true trace_31_february setup).actual_date.year ≤ 2099) ∧
    (1 ≤ (run true trace_31_february setup).new_date.month ∧
      (run true trace_31_february setup).new_date.month ≤ 12 ∧
      1 ≤ (run true trace_31_february setup).new_date.day ∧
      (run true trace_31_february setup).new_date.day ≤ 31 ∧
      0 ≤ (run true trace_31_february setup).new_date.year ∧
      (run true trace_31_february setup).new_date.year ≤ 2099)) :=
  ⟨reachable_run true trace_31_february setup Reachable.init,
   C2_date_range_invariant true _ (reachable_run true trace_31_february setup Reachable.init)⟩

/-! ## C3: committing the time -/

/-- C3 as stated fails: in the commit-time state 110 with the clock at 23:59:59 and the edit
buffer at 0:59, one tick leaves `actual_time.hours` at 23 (not the edit buffer's 0), whether
the bus start succeeds or not and for either signedness of `char`. -/
theorem C3_commit_leaves_actual_time :
    state_commit_midnight.menu_index = 110 ∧ state_commit_midnight.new_time.hours = 0 ∧
    (fsm_menu true bus_up state_commit_midnight).1.actual_time.hours = 23 ∧
    (fsm_menu false bus_up state_commit_midnight).1.actual_time.hours = 23 ∧
    (fsm_menu true bus_down state_commit_midnight).1.actual_time.hours = 23 ∧
    (fsm_menu false bus_down state_commit_midnight).1.actual_time.hours = 23 := by
  decide

/-- C3 as amended: a tick in the commit-time state 110 changes nothing in memory but the menu
state, which becomes Display (300): `actual_time` keeps its value and is not overwritten by the
edit buffer.  The edit buffer is handed to `write_time`: when the bus start succeeds the
bytes written are 0x00, 0, the encoded edit minutes and the encoded edit hours. -/
theorem C3_commit_time_writes_through (sgn : Bool) (bus : Bus) (s : State)
    (h : s.menu_index = 110) :
    (fsm_menu sgn bus s).1 = { s with menu_index := 300 } ∧
    (fsm_menu sgn bus s).1.actual_time = s.actual_time ∧
    (fsm_menu sgn bus s).1.menu_index = 300 ∧
    (toChar sgn bus.start_status = 0 →
      written_bytes (fsm_menu sgn bus s).2 =
        [0, 0, toU8 (bcd_encode sgn s.new_time.minutes),
          toU8 (bcd_encode sgn s.new_time.hours)]) := by
  have e : fsm_menu sgn bus s = ({ s with menu_index := 300 }, write_time sgn bus s) := by
    simp [fsm_menu, h]
  rw [e]
  refine ⟨rfl, rfl, rfl, ?_⟩
  intro hs
  simp [write_time, hs, written_bytes, toU8]

theorem C3_commit_time_writes_through_witness :
    (fsm_menu true bus_up state_commit_midnight).1
      = { state_commit_midnight with menu_index := 300 } ∧
    (fsm_menu true bus_up state_commit_midnight).1.actual_time
      = state_commit_midnight.actual_time ∧
    (fsm_menu true bus_up state_commit_midnight).1.menu_index = 300 ∧
    (toChar true bus_up.start_status = 0 →
      written_bytes (fsm_menu true bus_up state_commit_midnight).2 =
        [0, 0, toU8 (bcd_encode true state_commit_midnight.new_time.minutes),
          toU8 (bcd_encode true state_commit_midnight.new_time.hours)]) :=
  C3_commit_time_writes_through true bus_up state_commit_midnight (by decide)

/-! ## C4: the ends of the navigation ring -/

/-- C4 as stated fails: a tick in Alarms (310) with button UP moves to SetDate (350), and a tick
in SetDate (350) with button DOWN moves to Alarms (310). -/
theorem C4_ring_wraps_at_ends :
    (fsm_menu true bus_up (state_at 310 Button.UP)).1.menu_index = 350 ∧
    (fsm_menu false bus_up (state_at 310 Button.UP)).1.menu_index = 350 ∧
    (fsm_menu true bus_up (state_at 350 Button.DOWN)).1.menu_index = 310 ∧
    (fsm_menu false bus_up (state_at 350 Button.DOWN)).1.menu_index = 310 := by
  decide

/-- C4 as amended: the navigation ring is cyclic at its ends.  A tick in Alarms (310) with
button UP changes the menu state to SetDate (350) and nothing else; a tick in SetDate (350) with
button DOWN changes the menu state to Alarms (310) and nothing else; neither uses the bus. -/
theorem C4_ring_is_cyclic (sgn : Bool) (bus : Bus) (s : State) :
    (s.menu_index = 310 → s.button_pressed = Button.UP →
      fsm_menu sgn bus s = ({ s with menu_index := 350 }, [])) ∧
    (s.menu_index = 350 → s.button_pressed = Button.DOWN →
      fsm_menu sgn bus s = ({ s with menu_index := 310 }, [])) := by
  constructor
  · intro hm hb
    simp [fsm_menu, hm, case_menu, hb]
  · intro hm hb
    simp [fsm_menu, hm, case_350, hb]

theorem C4_ring_is_cyclic_witness :
    fsm_menu true bus_up (state_at 310 Button.UP)
      = ({ state_at 310 Button.UP with menu_index := 350 }, []) ∧
    fsm_menu true bus_up (state_at 350 Button.DOWN)
      = ({ state_at 350 Button.DOWN with menu_index := 310 }, []) :=
  ⟨(C4_ring_is_cyclic true bus_up (state_at 310 Button.UP)).1 (by decide) (by decide),
   (C4_ring_is_cyclic true bus_up (state_at 350 Button.DOWN)).2 (by decide) (by decide)⟩

/-! ## C5: day decrement -/

/-- C5: in SetDate.Edit (state 352) with button DOWN and the cursor on column 0 or 1, for every
edit date with month in 1..12, year in 2000..2099 and day in 1..`days_in_month`, the new day is
day - 1 when day > 1 and `days_in_month` of the unchanged month when day = 1; month and year
(and everything but the day and the menu state, which becomes 351) are unchanged. -/
theorem C5_day_decrement (sgn : Bool) (bus : Bus) (s : State)
    (hm : s.menu_index = 352) (hb : s.button_pressed = Button.DOWN)
    (hc : s.cursor = 0 ∨ s.cursor = 1) (hv : valid_date s.new_date) :
    (fsm_menu sgn bus s).1.new_date =
      { day := if s.new_date.day > 1 then s.new_date.day - 1
               else days_in_month s.new_date.month s.new_date.year
        month := s.new_date.month
        year := s.new_date.year } ∧
    (fsm_menu sgn bus s).1 =
      { s with new_date := (fsm_menu sgn bus s).1.new_date, menu_index := 351 } := by
  obtain ⟨hm0, hm1, hy0, hy1, hd0, hd1⟩ := hv
  have hd31 : s.new_date.day ≤ 31 := by
    unfold days_in_month at hd1
    split_ifs at hd1 <;> omega
  have e : fsm_menu sgn bus s =
      ({ s with
         new_date := { s.new_date with day := day_down sgn s.new_date }
         menu_index := 351 }, []) := by
    simp [fsm_menu, hm, case_352, hb, hc]
  rw [e]
  refine ⟨?_, rfl⟩
  simp only [Date.mk.injEq, and_true]
  unfold day_down days_in_month
  rw [toChar_small sgn (s.new_date.day - 1) (by omega) (by omega),
    tmod_nonneg s.new_date.year 4 (by omega) (by omega)]
  simp only []
  split_ifs <;> omega

theorem C5_day_decrement_witness :
    (fsm_menu true bus_up
        { state_at 352 Button.DOWN with new_date := { day := 1, month := 2, year := 2004 } }
      ).1.new_date = { day := 29, month := 2, year := 2004 } := by
  have h := (C5_day_decrement true bus_up
    { state_at 352 Button.DOWN with new_date := { day := 1, month := 2, year := 2004 } }
    (by decide) (by decide) (by decide) (by decide)).1
  rw [h]
  decide

/-! ## C6: time adjustment is cyclic -/

theorem tick_342_hours_up (sgn : Bool) (bus : Bus) (s : State)
    (hm : s.menu_index = 342) (hb : s.button_pressed = Button.UP)
    (hc : s.cursor = 0 ∨ s.cursor = 1) (h0 : 0 ≤ s.new_time.hours) (h1 : s.new_time.hours ≤ 23) :
    fsm_menu sgn bus s =
      ({ s with
         new_time := { s.new_time with hours := (s.new_time.hours + 1) % 24 }
         menu_index := 341 }, []) := by
  have e : toChar sgn (Int.tmod (s.new_time.hours + 1) 24) = (s.new_time.hours + 1) % 24 := by
    rw [tmod_nonneg _ _ (by omega) (by omega), toChar_small sgn _ (by omega) (by omega)]
  simp [fsm_menu, hm, case_342, hb, hc, e]

theorem tick_342_hours_down (sgn : Bool) (bus : Bus) (s : State)
    (hm : s.menu_index = 342) (hb : s.button_pressed = Button.DOWN)
    (hc : s.cursor = 0 ∨ s.cursor = 1) (h0 : 0 ≤ s.new_time.hours) (h1 : s.new_time.hours ≤ 23) :
    fsm_menu sgn bus s =
      ({ s with
         new_time := { s.new_time with hours := (s.new_time.hours - 1) % 24 }
         menu_index := 341 }, []) := by
  have e : toChar sgn (Int.tmod (s.new_time.hours + 24 - 1) 24)
      = (s.new_time.hours - 1) % 24 := by
    rw [tmod_nonneg _ _ (by omega) (by omega), toChar_small sgn _ (by omega) (by omega)]
    omega
  simp [fsm_menu, hm, case_342, hb, hc, e]

theorem tick_342_minutes_up (sgn : Bool) (bus : Bus) (s : State)
    (hm : s.menu_index = 342) (hb : s.button_pressed = Button.UP)
    (hc : s.cursor = 3 ∨ s.cursor = 4) (h0 : 0 ≤ s.new_time.minutes)
    (h1 : s.new_time.minutes ≤ 59) :
    fsm_menu sgn bus s =
      ({ s with
         new_time := { s.new_time with minutes := (s.new_time.minutes + 1) % 60 }
         menu_index := 341 }, []) := by
  have e : toChar sgn (Int.tmod (s.new_time.minutes + 1) 60) = (s.new_time.minutes + 1) % 60 := by
    rw [tmod_nonneg _ _ (by omega) (by omega), toChar_small sgn _ (by omega) (by omega)]
  have c0 : ¬ (s.cursor = 0 ∨ s.cursor = 1) := by omega
  simp [fsm_menu, hm, case_342, hb, hc, c0, e]

theorem tick_342_minutes_down (sgn : Bool) (bus : Bus) (s : State)
    (hm : s.menu_index = 342) (hb : s.button_pressed = Button.DOWN)
    (hc : s.cursor = 3 ∨ s.cursor = 4) (h0 : 0 ≤ s.new_time.minutes)
    (h1 : s.new_time.minutes ≤ 59) :
    fsm_menu sgn bus s =
      ({ s with
         new_time := { s.new_time with minutes := (s.new_time.minutes - 1) % 60 }
         menu_index := 341 }, []) := by
  have e : toChar sgn (Int.tmod (s.new_time.minutes + 60 - 1) 60)
      = (s.new_time.minutes - 1) % 60 := by
    rw [tmod_nonneg _ _ (by omega) (by omega), toChar_small sgn _ (by omega) (by omega)]
    omega
  have c0 : ¬ (s.cursor = 0 ∨ s.cursor = 1) := by omega
  simp [fsm_menu, hm, case_342, hb, hc, c0, e]

theorem tick_341 (sgn : Bool) (bus : Bus) (s : State) (hm : s.menu_index = 341) :
    fsm_menu sgn bus s = ({ s with menu_index := 342 }, []) := by
  simp [fsm_menu, hm]

theorem hours_up_applications (sgn : Bool) :
    ∀ (k : Nat) (buses : List Bus) (s : State), buses.length = 2 * k →
      s.menu_index = 342 → s.button_pressed = Button.UP → (s.cursor = 0 ∨ s.cursor = 1) →
      0 ≤ s.new_time.hours → s.new_time.hours ≤ 23 →
      run sgn (ticks buses) s =
        { s with
          new_time := { s.new_time with hours := (s.new_time.hours + k) % 24 } } := by
  intro k
  induction k with
  | zero =>
    intro buses s hl hm hb hc h0 h1
    have hnil : buses = [] := List.length_eq_zero.mp (by omega)
    subst hnil
    have e : (s.new_time.hours + ((0 : Nat) : Int)) % 24 = s.new_time.hours := by omega
    rw [e]
    rfl
  | succ k ih =>
    intro buses s hl hm hb hc h0 h1
    obtain ⟨a_t, a_d, mi, ⟨sec, mn, hr⟩, n_d, bp, cu⟩ := s
    simp only at hm hb hc h0 h1
    subst hm
    match buses, hl with
    | b1 :: b2 :: rest, hl =>
      have hrest : rest.length = 2 * k := by simp at hl; omega
      have e1 := tick_342_hours_up sgn b1 ⟨a_t, a_d, 342, ⟨sec, mn, hr⟩, n_d, bp, cu⟩ rfl hb hc h0 h1
      simp only [ticks, List.map_cons, run, step]
      rw [e1, tick_341 sgn b2 _ rfl]
      have hi := ih rest ⟨a_t, a_d, 342, ⟨sec, mn, (hr + 1) % 24⟩, n_d, bp, cu⟩
        hrest rfl hb hc (by simp only []; omega) (by simp only []; omega)
      simp only [ticks] at hi
      rw [hi]
      have e : ((hr + 1) % 24 + (k : Int)) % 24
          = (hr + ((k + 1 : Nat) : Int)) % 24 := by
        push_cast
        omega
      simp only [e]

theorem minutes_up_applications (sgn : Bool) :
    ∀ (k : Nat) (buses : List Bus) (s : State), buses.length = 2 * k →
      s.menu_index = 342 → s.button_pressed = Button.UP → (s.cursor = 3 ∨ s.cursor = 4) →
      0 ≤ s.new_time.minutes → s.new_time.minutes ≤ 59 →
      run sgn (ticks buses) s =
        { s with
          new_time := { s.new_time with minutes := (s.new_time.minutes + k) % 60 } } := by
  intro k
  induction k with
  | zero =>
    intro buses s hl hm hb hc h0 h1
    have hnil : buses = [] := List.length_eq_zero.mp (by omega)
    subst hnil
    have e : (s.new_time.minutes + ((0 : Nat) : Int)) % 60 = s.new_time.minutes := by omega
    rw [e]
    rfl
  | succ k ih =>
    intro buses s hl hm hb hc h0 h1
    obtain ⟨a_t, a_d, mi, ⟨sec, mn, hr⟩, n_d, bp, cu⟩ := s
    simp only at hm hb hc h0 h1
    subst hm
    match buses, hl with
    | b1 :: b2 :: rest, hl =>
      have hrest : rest.length = 2 * k := by simp at hl; omega
      have e1 := tick_342_minutes_up sgn b1 ⟨a_t, a_d, 342, ⟨sec, mn, hr⟩, n_d, bp, cu⟩ rfl hb hc h0 h1
      simp only [ticks, List.map_cons, run, step]
      rw [e1, tick_341 sgn b2 _ rfl]
      have hi := ih rest ⟨a_t, a_d, 342, ⟨sec, (mn + 1) % 60, hr⟩, n_d, bp, cu⟩
        hrest rfl hb hc (by simp only []; omega) (by simp only []; omega)
      simp only [ticks] at hi
      rw [hi]
      have e : ((mn + 1) % 60 + (k : Int)) % 60
          = (mn + ((k + 1 : Nat) : Int)) % 60 := by
        push_cast
        omega
      simp only [e]

/-- C6: in SetTime.Edit (state 342) one application of an adjustment is the tick that adjusts
the field (and moves to 341) followed by the tick of 341 that returns to 342.  With the cursor
on column 0 or 1 and hours h in 0..23, one UP tick gives (h + 1) mod 24, one DOWN tick gives
(h - 1) mod 24 (23 when h = 0), 24 UP applications (48 ticks, any bus answers) return the whole
state, and k UP applications with 0 < k < 24 leave hours different from h.  With the cursor on
column 3 or 4 and minutes m in 0..59, one UP tick gives (m + 1) mod 60, one DOWN tick gives
(m - 1) mod 60 (59 when m = 0), and 60 UP applications (120 ticks) return the whole state. -/
theorem C6_time_adjustment_cyclic (sgn : Bool) (s : State) (hm : s.menu_index = 342) :
    ((s.cursor = 0 ∨ s.cursor = 1) → 0 ≤ s.new_time.hours → s.new_time.hours ≤ 23 →
      (∀ bus, s.button_pressed = Button.UP →
        (fsm_menu sgn bus s).1.new_time
          = { s.new_time with hours := (s.new_time.hours + 1) % 24 }) ∧
      (∀ bus, s.button_pressed = Button.DOWN →
        (fsm_menu sgn bus s).1.new_time
          = { s.new_time with hours := (s.new_time.hours - 1) % 24 } ∧
        (s.new_time.hours = 0 → (fsm_menu sgn bus s).1.new_time.hours = 23)) ∧
      (s.button_pressed = Button.UP →
        ∀ buses : List Bus, buses.length = 48 → run sgn (ticks buses) s = s) ∧
      (s.button_pressed = Button.UP →
        ∀ (k : Nat) (buses : List Bus), 0 < k → k < 24 → buses.length = 2 * k →
          (run sgn (ticks buses) s).new_time.hours ≠ s.new_time.hours)) ∧
    ((s.cursor = 3 ∨ s.cursor = 4) → 0 ≤ s.new_time.minutes → s.new_time.minutes ≤ 59 →
      (∀ bus, s.button_pressed = Button.UP →
        (fsm_menu sgn bus s).1.new_time
          = { s.new_time with minutes := (s.new_time.minutes + 1) % 60 }) ∧
      (∀ bus, s.button_pressed = Button.DOWN →
        (fsm_menu sgn bus s).1.new_time
          = { s.new_time with minutes := (s.new_time.minutes - 1) % 60 } ∧
        (s.new_time.minutes = 0 → (fsm_menu sgn bus s).1.new_time.minutes = 59)) ∧
      (s.button_pressed = Button.UP →
        ∀ buses : List Bus, buses.length = 120 → run sgn (ticks buses) s = s)) := by
  constructor
  · intro hc h0 h1
    refine ⟨?_, ?_, ?_, ?_⟩
    · intro bus hb
      rw [tick_342_hours_up sgn bus s hm hb hc h0 h1]
    · intro bus hb
      rw [tick_342_hours_down sgn bus s hm hb hc h0 h1]
      refine ⟨rfl, ?_⟩
      intro hz
      simp only [hz]
      decide
    · intro hb buses hl
      rw [hours_up_applications sgn 24 buses s hl hm hb hc h0 h1]
      have e : (s.new_time.hours + ((24 : Nat) : Int)) % 24 = s.new_time.hours := by omega
      rw [e]
    · intro hb k buses hk0 hk1 hl
      rw [hours_up_applications sgn k buses s hl hm hb hc h0 h1]
      simp only []
      omega
  · intro hc h0 h1
    refine ⟨?_, ?_, ?_⟩
    · intro bus hb
      rw [tick_342_minutes_up sgn bus s hm hb hc h0 h1]
    · intro bus hb
      rw [tick_342_minutes_down sgn bus s hm hb hc h0 h1]
      refine ⟨rfl, ?_⟩
      intro hz
      simp only [hz]
      decide
    · intro hb buses hl
      rw [minutes_up_applications sgn 60 buses s hl hm hb hc h0 h1]
      have e : (s.new_time.minutes + ((60 : Nat) : Int)) % 60 = s.new_time.minutes := by omega
      rw [e]

theorem C6_time_adjustment_cyclic_witness :
    (state_at 342 Button.UP).menu_index = 342 ∧
    (fsm_menu true bus_up (state_at 342 Button.UP)).1.new_time
      = { (state_at 342 Button.UP).new_time with
          hours := ((state_at 342 Button.UP).new_time.hours + 1) % 24 } ∧
    run true (ticks (List.replicate 48 bus_up)) (state_at 342 Button.UP)
      = state_at 342 Button.UP ∧
    (fsm_menu true bus_up { state_at 342 Button.DOWN with cursor := 3 }).1.new_time.minutes
      = 59 ∧
    run true (ticks (List.replicate 120 bus_up)) { state_at 342 Button.UP with cursor := 4 }
      = { state_at 342 Button.UP with cursor := 4 } :=
  ⟨by decide,
   ((C6_time_adjustment_cyclic true (state_at 342 Button.UP) (by decide)).1
      (by decide) (by decide) (by decide)).1 bus_up (by decide),
   ((C6_time_adjustment_cyclic true (state_at 342 Button.UP) (by decide)).1
      (by decide) (by decide) (by decide)).2.2.1 (by decide) (List.replicate 48 bus_up)
      (by decide),
   ((((C6_time_adjustment_cyclic true { state_at 342 Button.DOWN with cursor := 3 }
      (by decide)).2 (by decide) (by decide) (by decide)).2.1 bus_up (by decide)).2
      (by decide)),
   ((C6_time_adjustment_cyclic true { state_at 342 Button.UP with cursor := 4 }
      (by decide)).2 (by decide) (by decide) (by decide)).2.2 (by decide)
      (List.replicate 120 bus_up) (by decide)⟩

/-! ## C7: button classification -/

/-- C7: for every sample in 0..1023 `ISR(ADC_vect)` sets the button symbol by the band table:
up to 20 RIGHT, 82..122 UP, 226..266 DOWN, 383..423 LEFT, 631..671 SELECT, and NONE for every
other sample (between two bands or above 671); it changes nothing but the button symbol, and
sample 95 gives UP. -/
theorem C7_button_classification (adc : Nat) (s : State) (h : adc ≤ 1023) :
    (adc ≤ 20 → (ISR_ADC adc s).button_pressed = Button.RIGHT) ∧
    (82 ≤ adc ∧ adc ≤ 122 → (ISR_ADC adc s).button_pressed = Button.UP) ∧
    (226 ≤ adc ∧ adc ≤ 266 → (ISR_ADC adc s).button_pressed = Button.DOWN) ∧
    (383 ≤ adc ∧ adc ≤ 423 → (ISR_ADC adc s).button_pressed = Button.LEFT) ∧
    (631 ≤ adc ∧ adc ≤ 671 → (ISR_ADC adc s).button_pressed = Button.SELECT) ∧
    ((20 < adc ∧ adc < 82) ∨ (122 < adc ∧ adc < 226) ∨ (266 < adc ∧ adc < 383) ∨
        (423 < adc ∧ adc < 631) ∨ 671 < adc →
      (ISR_ADC adc s).button_pressed = Button.NONE) ∧
    ISR_ADC adc s = { s with button_pressed := (ISR_ADC adc s).button_pressed } ∧
    (ISR_ADC 95 s).button_pressed = Button.UP := by
  have e : adc % 65536 = adc := by omega
  unfold ISR_ADC
  simp only [e]
  refine ⟨?_, ?_, ?_, ?_, ?_, ?_, ?_, ?_⟩
  · intro h1; rw [if_pos h1]
  · intro h1; rw [if_neg (by omega), if_pos (by omega)]
  · intro h1; rw [if_neg (by omega), if_neg (by omega), if_pos (by omega)]
  · intro h1; rw [if_neg (by omega), if_neg (by omega), if_neg (by omega), if_pos (by omega)]
  · intro h1
    rw [if_neg (by omega), if_neg (by omega), if_neg (by omega), if_neg (by omega),
      if_pos (by omega)]
  · intro h1
    rw [if_neg (by omega), if_neg (by omega), if_neg (by omega), if_neg (by omega),
      if_neg (by omega)]
  · split_ifs <;> rfl
  · rfl

theorem C7_button_classification_witness :
    (ISR_ADC 95 setup).button_pressed = Button.UP ∧
    (ISR_ADC 700 setup).button_pressed = Button.NONE :=
  ⟨(C7_button_classification 95 setup (by decide)).2.1 (by decide),
   (C7_button_classification 700 setup (by decide)).2.2.2.2.2.1 (by decide)⟩

/-! ## C8: navigation stepping -/

/-- C8: one tick from Display (300) goes to Alarms (310) with button UP or DOWN and stays in
Display with any other button; DOWN steps 310, 320, 330, 340, 350 and UP steps the same list
backwards; LEFT from each of the five navigation states goes to Display; with NONE or RIGHT a
navigation state is left unchanged altogether; and a tick in a navigation state without SELECT
changes no time or date field (nor the cursor or the button symbol) and makes no bus call. -/
theorem C8_navigation_stepping (sgn : Bool) (bus : Bus) (s : State) :
    (s.menu_index = 300 →
      (s.button_pressed = Button.UP ∨ s.button_pressed = Button.DOWN →
        (fsm_menu sgn bus s).1.menu_index = 310) ∧
      (¬ (s.button_pressed = Button.UP ∨ s.button_pressed = Button.DOWN) →
        (fsm_menu sgn bus s).1.menu_index = 300)) ∧
    (s.button_pressed = Button.DOWN →
      (s.menu_index = 310 → (fsm_menu sgn bus s).1.menu_index = 320) ∧
      (s.menu_index = 320 → (fsm_menu sgn bus s).1.menu_index = 330) ∧
      (s.menu_index = 330 → (fsm_menu sgn bus s).1.menu_index = 340) ∧
      (s.menu_index = 340 → (fsm_menu sgn bus s).1.menu_index = 350)) ∧
    (s.button_pressed = Button.UP →
      (s.menu_index = 350 → (fsm_menu sgn bus s).1.menu_index = 340) ∧
      (s.menu_index = 340 → (fsm_menu sgn bus s).1.menu_index = 330) ∧
      (s.menu_index = 330 → (fsm_menu sgn bus s).1.menu_index = 320) ∧
      (s.menu_index = 320 → (fsm_menu sgn bus s).1.menu_index = 310)) ∧
    (s.button_pressed = Button.LEFT → s.menu_index ∈ navigation_states →
      (fsm_menu sgn bus s).1.menu_index = 300) ∧
    (s.button_pressed = Button.NONE ∨ s.button_pressed = Button.RIGHT →
      s.menu_index ∈ navigation_states → fsm_menu sgn bus s = (s, [])) ∧
    (s.button_pressed ≠ Button.SELECT → s.menu_index ∈ navigation_states →
      (fsm_menu sgn bus s).1.actual_time = s.actual_time ∧
      (fsm_menu sgn bus s).1.actual_date = s.actual_date ∧
      (fsm_menu sgn bus s).1.new_time = s.new_time ∧
      (fsm_menu sgn bus s).1.new_date = s.new_date ∧
      (fsm_menu sgn bus s).1.cursor = s.cursor ∧
      (fsm_menu sgn bus s).1.button_pressed = s.button_pressed ∧
      (fsm_menu sgn bus s).2 = []) := by
  refine ⟨?_, ?_, ?_, ?_, ?_, ?_⟩
  · intro hm
    constructor
    · intro hb
      have hb2 : (read_time sgn bus s).1.button_pressed = Button.UP ∨
          (read_time sgn bus s).1.button_pressed = Button.DOWN := by
        rw [read_time_button]; exact hb
      simp [fsm_menu, hm, case_300, hb2]
    · intro hb
      have hb2 : ¬ ((read_time sgn bus s).1.button_pressed = Button.UP ∨
          (read_time sgn bus s).1.button_pressed = Button.DOWN) := by
        rw [read_time_button]; exact hb
      have hm2 : (read_time sgn bus s).1.menu_index = 300 := by
        rw [read_time_menu_index]; exact hm
      simp [fsm_menu, hm, case_300, hb2, hm2]
  · intro hb
    refine ⟨?_, ?_, ?_, ?_⟩ <;> intro hm <;> simp [fsm_menu, hm, case_menu, case_340, hb]
  · intro hb
    refine ⟨?_, ?_, ?_, ?_⟩ <;> intro hm <;>
      simp [fsm_menu, hm, case_menu, case_340, case_350, hb]
  · intro hb hm
    simp only [navigation_states, List.mem_cons, List.mem_singleton, List.not_mem_nil,
      or_false] at hm
    rcases hm with hm | hm | hm | hm | hm <;>
      simp [fsm_menu, hm, case_menu, case_340, case_350, hb]
  · intro hb hm
    simp only [navigation_states, List.mem_cons, List.mem_singleton, List.not_mem_nil,
      or_false] at hm
    rcases hb with hb | hb <;> rcases hm with hm | hm | hm | hm | hm <;>
      simp [fsm_menu, hm, case_menu, case_340, case_350, hb]
  · intro hb hm
    simp only [navigation_states, List.mem_cons, List.mem_singleton, List.not_mem_nil,
      or_false] at hm
    rcases hm with hm | hm | hm | hm | hm <;>
      simp only [fsm_menu, hm, case_menu, case_340, case_350] <;>
      norm_num <;> split_ifs <;> simp_all

theorem C8_navigation_stepping_witness :
    (fsm_menu true bus_up (state_at 300 Button.UP)).1.menu_index = 310 ∧
    (fsm_menu true bus_up (state_at 330 Button.DOWN)).1.menu_index = 340 ∧
    (fsm_menu true bus_up (state_at 330 Button.UP)).1.menu_index = 320 ∧
    (fsm_menu true bus_up (state_at 340 Button.LEFT)).1.menu_index = 300 ∧
    fsm_menu true bus_up (state_at 350 Button.RIGHT) = (state_at 350 Button.RIGHT, []) ∧
    (fsm_menu true bus_up (state_at 310 Button.DOWN)).1.new_time
      = (state_at 310 Button.DOWN).new_time :=
  ⟨((C8_navigation_stepping true bus_up (state_at 300 Button.UP)).1 (by decide)).1
      (by decide),
   ((C8_navigation_stepping true bus_up (state_at 330 Button.DOWN)).2.1 (by decide)).2.2.1
      (by decide),
   ((C8_navigation_stepping true bus_up (state_at 330 Button.UP)).2.2.1 (by decide)).2.2.1
      (by decide),
   (C8_navigation_stepping true bus_up (state_at 340 Button.LEFT)).2.2.2.1 (by decide)
      (by decide),
   (C8_navigation_stepping true bus_up (state_at 350 Button.RIGHT)).2.2.2.2.1 (by decide)
      (by decide),
   ((C8_navigation_stepping true bus_up (state_at 310 Button.DOWN)).2.2.2.2.2 (by decide)
      (by decide)).2.2.1⟩

/-! ## C9: wire format of write_time -/

/-- C9 as stated fails: with the edit buffer at 00:00:30 and a successful bus start,
`write_time` transmits 0x00, 0, 0, 0, whereas the encoding of the edit seconds is 0x30 = 48;
the byte after the register pointer is the literal 0, not the encoded seconds. -/
theorem C9_seconds_byte_is_zero :
    toChar true bus_up.start_status = 0 ∧ toChar false bus_up.start_status = 0 ∧
    state_commit_30_seconds.new_time.seconds = 30 ∧ bcd_spec 30 = 48 ∧
    written_bytes (write_time true bus_up state_commit_30_seconds) = [0, 0, 0, 0] ∧
    written_bytes (write_time false bus_up state_commit_30_seconds) = [0, 0, 0, 0] := by
  decide

/-- C9 as amended: whenever the bus start succeeds, `write_time` transmits exactly four data
bytes in this order: register pointer 0x00, then 0 for the seconds register whatever the edit
buffer's seconds are, then the BCD encodings `((v/10) << 4) | (v % 10)` of the edit buffer's
minutes and hours, for every edit buffer with minutes in 0..59 and hours in 0..23; the bus
calls are start (write mode), the four writes, stop. -/
theorem C9_write_time_wire_format (sgn : Bool) (bus : Bus) (s : State)
    (hs : toChar sgn bus.start_status = 0)
    (hm0 : 0 ≤ s.new_time.minutes) (hm1 : s.new_time.minutes ≤ 59)
    (hh0 : 0 ≤ s.new_time.hours) (hh1 : s.new_time.hours ≤ 23) :
    written_bytes (write_time sgn bus s) =
      [0x00, 0, (bcd_spec s.new_time.minutes.toNat : Int),
        (bcd_spec s.new_time.hours.toNat : Int)] ∧
    write_time sgn bus s =
      [TwiOp.start (toU8 ((SLAVE_ADDRESS_DS3231 <<< (1 : Int)) + TWI_WRITE)),
       TwiOp.write 0x00, TwiOp.write 0,
       TwiOp.write (bcd_spec s.new_time.minutes.toNat : Int),
       TwiOp.write (bcd_spec s.new_time.hours.toNat : Int),
       TwiOp.stop] := by
  have u8 : ∀ v : Int, 0 ≤ v → v ≤ 59 → toU8 (bcd_encode sgn v) = (bcd_spec v.toNat : Int) := by
    intro v h0 h1
    cases sgn <;> interval_cases v <;> rfl
  have em := u8 s.new_time.minutes hm0 hm1
  have eh := u8 s.new_time.hours hh0 (by omega)
  simp only [write_time, hs, if_true, em, eh, written_bytes]
  exact ⟨rfl, rfl⟩

theorem C9_write_time_wire_format_witness :
    written_bytes (write_time true bus_up state_commit_midnight) = [0x00, 0, 0x59, 0x00] :=
  (C9_write_time_wire_format true bus_up state_commit_midnight (by decide) (by decide)
    (by decide) (by decide) (by decide)).1

/-! ## C10: the BCD encoding and its inverse -/

theorem bcd_encode_eq_spec (sgn : Bool) (v : Int) (h0 : 0 ≤ v) (h1 : v ≤ 59) :
    bcd_encode sgn v = (bcd_spec v.toNat : Int) := by
  cases sgn <;> interval_cases v <;> rfl

theorem bcd_round_trip (sgn : Bool) (v : Int) (h0 : 0 ≤ v) (h1 : v ≤ 59) :
    bcd_decode sgn (toChar sgn (toU8 (bcd_encode sgn v))) = v := by
  cases sgn <;> interval_cases v <;> rfl

theorem bcd_nibbles (sgn : Bool) (v : Int) (h0 : 0 ≤ v) (h1 : v ≤ 59) :
    bcd_encode sgn v >>> 4 = v / 10 ∧ Int.land (bcd_encode sgn v) 0x0F = v % 10 := by
  cases sgn <;> interval_cases v <;> exact ⟨rfl, rfl⟩

/-- C10: for every value v in 0..59 the byte that `write_time` computes with
`((v / 10) << 4) + (v % 10)` equals the specified `((v/10) << 4) | (v % 10)`; decoding it with
the expression of `read_time` (directly, or after it went over the bus as a `uint8_t` and came
back into the `char value`) returns v; its high nibble is the tens digit and its low nibble the
units digit of v. -/
theorem C10_bcd_round_trip (sgn : Bool) (v : Int) (h0 : 0 ≤ v) (h1 : v ≤ 59) :
    bcd_encode sgn v = (bcd_spec v.toNat : Int) ∧
    bcd_decode sgn (bcd_encode sgn v) = v ∧
    bcd_decode sgn (toChar sgn (toU8 (bcd_encode sgn v))) = v ∧
    bcd_encode sgn v >>> 4 = v / 10 ∧
    Int.land (bcd_encode sgn v) 0x0F = v % 10 := by
  refine ⟨bcd_encode_eq_spec sgn v h0 h1, ?_, bcd_round_trip sgn v h0 h1,
    (bcd_nibbles sgn v h0 h1).1, (bcd_nibbles sgn v h0 h1).2⟩
  cases sgn <;> interval_cases v <;> rfl

theorem C10_bcd_round_trip_witness :
    bcd_encode true 59 = (bcd_spec 59 : Int) ∧
    bcd_decode true (bcd_encode true 59) = 59 ∧
    bcd_decode true (toChar true (toU8 (bcd_encode true 59))) = 59 ∧
    bcd_encode true 59 >>> 4 = 5 ∧
    Int.land (bcd_encode true 59) 0x0F = 9 :=
  C10_bcd_round_trip true 59 (by decide) (by decide)

/-! ## C11: a rejected bus start -/

theorem toChar_status_ne_zero (sgn : Bool) (b : Nat) (h0 : 0 < b) (h1 : b < 256) :
    toChar sgn (b : Int) ≠ 0 := by
  unfold toChar
  split <;> omega

theorem read_time_rejected (sgn : Bool) (bus : Bus) (s : State)
    (h : toChar sgn bus.start_status ≠ 0) :
    read_time sgn bus s =
      (s, [TwiOp.start (toU8 ((SLAVE_ADDRESS_DS3231 <<< (1 : Int)) + TWI_WRITE))]) := by
  simp only [read_time, if_neg h]

theorem read_time_accepted (sgn : Bool) (bus : Bus) (s : State)
    (h : toChar sgn bus.start_status = 0) :
    (read_time sgn bus s).1 =
      { s with
        actual_time :=
          { seconds := bcd_decode sgn (toChar sgn bus.byte1)
            minutes := bcd_decode sgn (toChar sgn bus.byte2)
            hours := bcd_decode sgn (toChar sgn bus.byte3) } } := by
  simp only [read_time, if_pos h]

/-- C11: when `twi_start` returns a non-zero status (a `uint8_t` in 1..255), `read_time` leaves
all globals, `actual_time` included, at their previous value and makes no bus call after that
start; a Display tick (state 300) with such a start leaves `actual_time`, `actual_date`,
`new_time` and `new_date` unchanged.  When the start returns 0, `read_time` sets seconds,
minutes and hours to the decodings of the first, second and third byte read and changes
nothing else. -/
theorem C11_rejected_start_is_harmless (sgn : Bool) (bus : Bus) (s : State) :
    (0 < bus.start_status → bus.start_status < 256 →
      (read_time sgn bus s).1 = s ∧
      (read_time sgn bus s).2 =
        [TwiOp.start (toU8 ((SLAVE_ADDRESS_DS3231 <<< (1 : Int)) + TWI_WRITE))] ∧
      (s.menu_index = 300 →
        (fsm_menu sgn bus s).1.actual_time = s.actual_time ∧
        (fsm_menu sgn bus s).1.actual_date = s.actual_date ∧
        (fsm_menu sgn bus s).1.new_time = s.new_time ∧
        (fsm_menu sgn bus s).1.new_date = s.new_date ∧
        (fsm_menu sgn bus s).2 =
          [TwiOp.start (toU8 ((SLAVE_ADDRESS_DS3231 <<< (1 : Int)) + TWI_WRITE))])) ∧
    (bus.start_status = 0 →
      (read_time sgn bus s).1.actual_time =
        { seconds := bcd_decode sgn (toChar sgn bus.byte1)
          minutes := bcd_decode sgn (toChar sgn bus.byte2)
          hours := bcd_decode sgn (toChar sgn bus.byte3) } ∧
      (read_time sgn bus s).1 =
        { s with actual_time := (read_time sgn bus s).1.actual_time }) := by
  constructor
  · intro h0 h1
    have hr := read_time_rejected sgn bus s (toChar_status_ne_zero sgn _ h0 h1)
    refine ⟨by rw [hr], by rw [hr], ?_⟩
    intro hm
    have e : fsm_menu sgn bus s = case_300 sgn bus s := by
      simp [fsm_menu, hm]
    rw [e]
    simp only [case_300, hr]
    split_ifs <;> exact ⟨rfl, rfl, rfl, rfl, rfl⟩
  · intro h0
    have hz : toChar sgn bus.start_status = 0 := by
      rw [h0]; cases sgn <;> rfl
    refine ⟨?_, read_time_frame sgn bus s⟩
    rw [read_time_accepted sgn bus s hz]

theorem C11_rejected_start_is_harmless_witness :
    (read_time true bus_down state_display).1 = state_display ∧
    (fsm_menu true bus_down state_display).1.actual_time = state_display.actual_time ∧
    (read_time true bus_12_23_59 state_display).1.actual_time
      = { seconds := 59, minutes := 23, hours := 12 } :=
  ⟨((C11_rejected_start_is_harmless true bus_down state_display).1
      (by decide) (by decide)).1,
   (((C11_rejected_start_is_harmless true bus_down state_display).1
      (by decide) (by decide)).2.2 (by decide)).1,
   ((C11_rejected_start_is_harmless true bus_12_23_59 state_display).2 (by decide)).1⟩

/-! ## Frame of the cases of one tick -/

theorem case_menu_frame (up down : Int) (s : State) :
    case_menu up down s = { s with menu_index := (case_menu up down s).menu_index } := by
  obtain ⟨a_t, a_d, mi, n_t, n_d, bp, cu⟩ := s
  cases bp <;> simp [case_menu]

theorem case_340_frame (s : State) :
    (case_340 s).actual_time = s.actual_time ∧ (case_340 s).actual_date = s.actual_date ∧
    (case_340 s).new_date = s.new_date ∧ (case_340 s).button_pressed = s.button_pressed := by
  obtain ⟨a_t, a_d, mi, n_t, n_d, bp, cu⟩ := s
  cases bp <;> simp [case_340]

theorem case_350_frame (s : State) :
    (case_350 s).actual_time = s.actual_time ∧ (case_350 s).actual_date = s.actual_date ∧
    (case_350 s).new_time = s.new_time ∧ (case_350 s).button_pressed = s.button_pressed := by
  obtain ⟨a_t, a_d, mi, n_t, n_d, bp, cu⟩ := s
  cases bp <;> simp [case_350]

theorem case_342_frame (sgn : Bool) (s : State) :
    (case_342 sgn s).actual_time = s.actual_time ∧ (case_342 sgn s).actual_date = s.actual_date ∧
    (case_342 sgn s).new_date = s.new_date ∧
    (case_342 sgn s).button_pressed = s.button_pressed ∧
    (case_342 sgn s).new_time.seconds = s.new_time.seconds := by
  obtain ⟨a_t, a_d, mi, n_t, n_d, bp, cu⟩ := s
  by_cases c01 : cu = 0 ∨ cu = 1 <;> by_cases c34 : cu = 3 ∨ cu = 4 <;>
    cases bp <;> simp [case_342, c01, c34]

theorem case_352_frame (sgn : Bool) (s : State) :
    (case_352 sgn s).actual_time = s.actual_time ∧ (case_352 sgn s).actual_date = s.actual_date ∧
    (case_352 sgn s).new_time = s.new_time ∧
    (case_352 sgn s).button_pressed = s.button_pressed := by
  obtain ⟨a_t, a_d, mi, n_t, n_d, bp, cu⟩ := s
  by_cases c01 : cu = 0 ∨ cu = 1 <;> by_cases c34 : cu = 3 ∨ cu = 4 <;>
    by_cases c69 : cu > 5 ∧ cu < 10 <;> cases bp <;> simp [case_352, c01, c34, c69]

theorem case_342_adjust_frame (sgn : Bool) (s : State)
    (hb : s.button_pressed = Button.UP ∨ s.button_pressed = Button.DOWN) :
    case_342 sgn s =
      { s with
        new_time := (case_342 sgn s).new_time
        menu_index := (case_342 sgn s).menu_index } := by
  obtain ⟨a_t, a_d, mi, n_t, n_d, bp, cu⟩ := s
  simp only at hb
  by_cases c01 : cu = 0 ∨ cu = 1 <;> by_cases c34 : cu = 3 ∨ cu = 4 <;>
    rcases hb with hb | hb <;> subst hb <;> simp [case_342, c01, c34]

theorem case_352_adjust_frame (sgn : Bool) (s : State)
    (hb : s.button_pressed = Button.UP ∨ s.button_pressed = Button.DOWN) :
    case_352 sgn s =
      { s with
        new_date := (case_352 sgn s).new_date
        menu_index := (case_352 sgn s).menu_index } := by
  obtain ⟨a_t, a_d, mi, n_t, n_d, bp, cu⟩ := s
  simp only at hb
  by_cases c01 : cu = 0 ∨ cu = 1 <;> by_cases c34 : cu = 3 ∨ cu = 4 <;>
    by_cases c69 : cu > 5 ∧ cu < 10 <;>
    rcases hb with hb | hb <;> subst hb <;> simp [case_352, c01, c34, c69]

theorem case_300_frame (sgn : Bool) (bus : Bus) (s : State) :
    (case_300 sgn bus s).1.actual_date = s.actual_date ∧
    (case_300 sgn bus s).1.new_time = s.new_time ∧
    (case_300 sgn bus s).1.new_date = s.new_date ∧
    (case_300 sgn bus s).1.button_pressed = s.button_pressed ∧
    (case_300 sgn bus s).1.cursor = s.cursor ∧
    (case_300 sgn bus s).1.actual_time = (read_time sgn bus s).1.actual_time := by
  have h := read_time_frame sgn bus s
  simp only [case_300]
  generalize read_time sgn bus s = r at h
  obtain ⟨⟨r1, r2, r3, r4, r5, r6, r7⟩, ops⟩ := r
  obtain ⟨a_t, a_d, mi, n_t, n_d, bp, cu⟩ := s
  simp only [State.mk.injEq, true_and] at h
  obtain ⟨rfl, rfl, rfl, rfl, rfl, rfl⟩ := h
  by_cases c : r6 = Button.UP ∨ r6 = Button.DOWN
  · rw [if_pos c]; exact ⟨rfl, rfl, rfl, rfl, rfl, rfl⟩
  · rw [if_neg c]; exact ⟨rfl, rfl, rfl, rfl, rfl, rfl⟩

/-! ## C12: the edit buffers and the authoritative store -/

theorem fsm_menu_actual_date (sgn : Bool) (bus : Bus) (s : State) (h : s.menu_index ≠ 210) :
    (fsm_menu sgn bus s).1.actual_date = s.actual_date := by
  apply fsm_menu_cases (fun r => r.1.actual_date = s.actual_date)
  · intro _; simp only []; rw [read_time_frame]
  · intro _; rfl
  · intro _; rfl
  · intro hm; exact absurd hm h
  · intro _; exact (case_300_frame sgn bus s).1
  · intro _; simp only []; rw [case_menu_frame]
  · intro _; simp only []; rw [case_menu_frame]
  · intro _; simp only []; rw [case_menu_frame]
  · intro _; exact (case_340_frame s).2.1
  · intro _; rfl
  · intro _; exact (case_342_frame sgn s).2.1
  · intro _; exact (case_350_frame s).2.1
  · intro _; rfl
  · intro _; exact (case_352_frame sgn s).2.1
  · intro _; rfl

theorem fsm_menu_actual_time (sgn : Bool) (bus : Bus) (s : State)
    (h100 : s.menu_index ≠ 100) (h300 : s.menu_index ≠ 300) :
    (fsm_menu sgn bus s).1.actual_time = s.actual_time := by
  apply fsm_menu_cases (fun r => r.1.actual_time = s.actual_time)
  · intro hm; exact absurd hm h100
  · intro _; rfl
  · intro _; rfl
  · intro _; rfl
  · intro hm; exact absurd hm h300
  · intro _; simp only []; rw [case_menu_frame]
  · intro _; simp only []; rw [case_menu_frame]
  · intro _; simp only []; rw [case_menu_frame]
  · intro _; exact (case_340_frame s).1
  · intro _; rfl
  · intro _; exact (case_342_frame sgn s).1
  · intro _; exact (case_350_frame s).1
  · intro _; rfl
  · intro _; exact (case_352_frame sgn s).1
  · intro _; rfl

/-- C12: for every state and button symbol, a tick of `fsm_menu` that does not start in the
commit-date state 210 leaves `actual_date` unchanged, and a tick that starts in a menu state
from 310 to 352 (the navigation, SetTime and SetDate states) leaves `actual_time` unchanged.
In particular an UP or DOWN tick in SetTime.Edit (342) changes, besides the menu state, only
`new_time`, and an UP or DOWN tick in SetDate.Edit (352) changes, besides the menu state, only
`new_date`; neither makes a bus call. -/
theorem C12_edit_buffers_do_not_leak (sgn : Bool) (bus : Bus) (s : State) :
    (s.menu_index ≠ 210 → (fsm_menu sgn bus s).1.actual_date = s.actual_date) ∧
    (310 ≤ s.menu_index → s.menu_index ≤ 352 →
      (fsm_menu sgn bus s).1.actual_time = s.actual_time) ∧
    (s.menu_index = 342 →
      s.button_pressed = Button.UP ∨ s.button_pressed = Button.DOWN →
      fsm_menu sgn bus s =
        ({ s with
           new_time := (fsm_menu sgn bus s).1.new_time
           menu_index := (fsm_menu sgn bus s).1.menu_index }, [])) ∧
    (s.menu_index = 352 →
      s.button_pressed = Button.UP ∨ s.button_pressed = Button.DOWN →
      fsm_menu sgn bus s =
        ({ s with
           new_date := (fsm_menu sgn bus s).1.new_date
           menu_index := (fsm_menu sgn bus s).1.menu_index }, [])) := by
  refine ⟨fsm_menu_actual_date sgn bus s, ?_, ?_, ?_⟩
  · intro h0 h1
    exact fsm_menu_actual_time sgn bus s (by omega) (by omega)
  · intro hm hb
    have e : fsm_menu sgn bus s = (case_342 sgn s, []) := by simp [fsm_menu, hm]
    rw [e]
    simp only []
    rw [← case_342_adjust_frame sgn s hb]
  · intro hm hb
    have e : fsm_menu sgn bus s = (case_352 sgn s, []) := by simp [fsm_menu, hm]
    rw [e]
    simp only []
    rw [← case_352_adjust_frame sgn s hb]

theorem C12_edit_buffers_do_not_leak_witness :
    (fsm_menu true bus_12_23_59 (state_edit_date Button.UP 0)).1.actual_date
      = (state_edit_date Button.UP 0).actual_date ∧
    (fsm_menu true bus_12_23_59 (state_edit_time Button.DOWN 3)).1.actual_time
      = (state_edit_time Button.DOWN 3).actual_time ∧
    fsm_menu true bus_12_23_59 (state_edit_time Button.DOWN 3) =
      ({ state_edit_time Button.DOWN 3 with
         new_time := (fsm_menu true bus_12_23_59 (state_edit_time Button.DOWN 3)).1.new_time
         menu_index :=
           (fsm_menu true bus_12_23_59 (state_edit_time Button.DOWN 3)).1.menu_index }, []) ∧
    fsm_menu true bus_12_23_59 (state_edit_date Button.UP 0) =
      ({ state_edit_date Button.UP 0 with
         new_date := (fsm_menu true bus_12_23_59 (state_edit_date Button.UP 0)).1.new_date
         menu_index :=
           (fsm_menu true bus_12_23_59 (state_edit_date Button.UP 0)).1.menu_index }, []) :=
  ⟨(C12_edit_buffers_do_not_leak true bus_12_23_59 (state_edit_date Button.UP 0)).1
      (by decide),
   (C12_edit_buffers_do_not_leak true bus_12_23_59 (state_edit_time Button.DOWN 3)).2.1
      (by decide) (by decide),
   (C12_edit_buffers_do_not_leak true bus_12_23_59 (state_edit_time Button.DOWN 3)).2.2.1
      (by decide) (by decide),
   (C12_edit_buffers_do_not_leak true bus_12_23_59 (state_edit_date Button.UP 0)).2.2.2
      (by decide) (by decide)⟩

/-! ## C13: ranges of the time -/

theorem ISR_ADC_frame (adc : Nat) (s : State) :
    ISR_ADC adc s = { s with button_pressed := (ISR_ADC adc s).button_pressed } := by
  simp only [ISR_ADC]
  split_ifs <;> rfl

theorem bcd_decode_byte (sgn : Bool) (limit b : Nat) (hl : limit ≤ 59)
    (hb : b ∈ bcd_bytes limit) :
    0 ≤ bcd_decode sgn (toChar sgn (b : Int)) ∧ bcd_decode sgn (toChar sgn (b : Int)) ≤ limit := by
  simp only [bcd_bytes, List.mem_map, List.mem_range] at hb
  obtain ⟨v, hv, rfl⟩ := hb
  have e : bcd_decode sgn (toChar sgn ((bcd_spec v : Nat) : Int)) = (v : Int) := by
    have hv59 : v ≤ 59 := by omega
    cases sgn <;> interval_cases v <;> rfl
  rw [e]
  omega

theorem read_time_range (sgn : Bool) (bus : Bus) (s : State) (hbus : bus_bcd sgn bus)
    (h : time_in_range s.actual_time) :
    time_in_range (read_time sgn bus s).1.actual_time := by
  by_cases hs : toChar sgn bus.start_status = 0
  · obtain ⟨h1, h2, h3⟩ := hbus hs
    rw [read_time_accepted sgn bus s hs]
    have d1 := bcd_decode_byte sgn 59 bus.byte1 (by omega) h1
    have d2 := bcd_decode_byte sgn 59 bus.byte2 (by omega) h2
    have d3 := bcd_decode_byte sgn 23 bus.byte3 (by omega) h3
    simp only [time_in_range]
    omega
  · rw [read_time_rejected sgn bus s hs]
    exact h

theorem case_340_new_time (s : State) :
    (case_340 s).new_time = s.new_time ∨ (case_340 s).new_time = s.actual_time := by
  obtain ⟨a_t, a_d, mi, n_t, n_d, bp, cu⟩ := s
  cases bp <;> simp [case_340]

theorem case_342_time_range (sgn : Bool) (s : State) (h : time_in_range s.new_time) :
    time_in_range (case_342 sgn s).new_time := by
  obtain ⟨a_t, a_d, mi, ⟨sec, mn, hr⟩, n_d, bp, cu⟩ := s
  simp only [time_in_range] at h
  obtain ⟨hs0, hs1, hm0, hm1, hh0, hh1⟩ := h
  have e1 : toChar sgn (Int.tmod (hr + 1) 24) = (hr + 1) % 24 := by
    rw [tmod_nonneg _ _ (by omega) (by omega), toChar_small sgn _ (by omega) (by omega)]
  have e2 : toChar sgn (Int.tmod (hr + 24 - 1) 24) = (hr + 24 - 1) % 24 := by
    rw [tmod_nonneg _ _ (by omega) (by omega), toChar_small sgn _ (by omega) (by omega)]
  have e3 : toChar sgn (Int.tmod (mn + 1) 60) = (mn + 1) % 60 := by
    rw [tmod_nonneg _ _ (by omega) (by omega), toChar_small sgn _ (by omega) (by omega)]
  have e4 : toChar sgn (Int.tmod (mn + 60 - 1) 60) = (mn + 60 - 1) % 60 := by
    rw [tmod_nonneg _ _ (by omega) (by omega), toChar_small sgn _ (by omega) (by omega)]
  by_cases c01 : cu = 0 ∨ cu = 1 <;> by_cases c34 : cu = 3 ∨ cu = 4 <;>
    cases bp <;> simp only [case_342, c01, c34, e1, e2, e3, e4, time_in_range] <;>
    simp <;> omega

theorem fsm_menu_time_range (sgn : Bool) (bus : Bus) (s : State) (hbus : bus_bcd sgn bus)
    (h : time_in_range s.actual_time ∧ time_in_range s.new_time) :
    time_in_range (fsm_menu sgn bus s).1.actual_time ∧
      time_in_range (fsm_menu sgn bus s).1.new_time := by
  obtain ⟨ha, hn⟩ := h
  have hr := read_time_range sgn bus s hbus ha
  have hf := read_time_frame sgn bus s
  apply fsm_menu_cases
    (fun r => time_in_range r.1.actual_time ∧ time_in_range r.1.new_time)
  · intro _; refine ⟨hr, ?_⟩; simp only []; rw [hf]; exact hn
  · intro _; exact ⟨ha, hn⟩
  · intro _; exact ⟨ha, hn⟩
  · intro _; exact ⟨ha, hn⟩
  · intro _
    obtain ⟨-, e2, -, -, -, e6⟩ := case_300_frame sgn bus s
    show time_in_range (case_300 sgn bus s).1.actual_time ∧
      time_in_range (case_300 sgn bus s).1.new_time
    rw [e2, e6]
    exact ⟨hr, hn⟩
  · intro _; simp only []; rw [case_menu_frame]; exact ⟨ha, hn⟩
  · intro _; simp only []; rw [case_menu_frame]; exact ⟨ha, hn⟩
  · intro _; simp only []; rw [case_menu_frame]; exact ⟨ha, hn⟩
  · intro _
    simp only []
    rw [(case_340_frame s).1]
    rcases case_340_new_time s with e | e <;> rw [e]
    · exact ⟨ha, hn⟩
    · exact ⟨ha, ha⟩
  · intro _; exact ⟨ha, hn⟩
  · intro _
    simp only []
    rw [(case_342_frame sgn s).1]
    exact ⟨ha, case_342_time_range sgn s hn⟩
  · intro _
    simp only []
    rw [(case_350_frame s).1, (case_350_frame s).2.2.1]
    exact ⟨ha, hn⟩
  · intro _; exact ⟨ha, hn⟩
  · intro _
    simp only []
    rw [(case_352_frame sgn s).1, (case_352_frame sgn s).2.2.1]
    exact ⟨ha, hn⟩
  · intro _; exact ⟨ha, hn⟩

theorem step_time_range (sgn : Bool) (e : Event) (s : State) (he : event_bcd sgn e)
    (h : time_in_range s.actual_time ∧ time_in_range s.new_time) :
    time_in_range (step sgn e s).actual_time ∧ time_in_range (step sgn e s).new_time := by
  cases e with
  | adc sample =>
    simp only [step]
    rw [ISR_ADC_frame]
    exact h
  | tick bus => exact fsm_menu_time_range sgn bus s he h

/-- C13: assuming that every RTC read whose start is accepted delivers bytes that are BCD
encodings of seconds in 0..59, minutes in 0..59 and hours in 0..23, in every state reachable
from `setup` by any sequence of samples and ticks both `actual_time` and the edit buffer
`new_time` have seconds in 0..59, minutes in 0..59 and hours in 0..23. -/
theorem C13_time_range_invariant (sgn : Bool) (s : State) (h : ReachableBcd sgn s) :
    (0 ≤ s.actual_time.seconds ∧ s.actual_time.seconds ≤ 59 ∧
      0 ≤ s.actual_time.minutes ∧ s.actual_time.minutes ≤ 59 ∧
      0 ≤ s.actual_time.hours ∧ s.actual_time.hours ≤ 23) ∧
    (0 ≤ s.new_time.seconds ∧ s.new_time.seconds ≤ 59 ∧
      0 ≤ s.new_time.minutes ∧ s.new_time.minutes ≤ 59 ∧
      0 ≤ s.new_time.hours ∧ s.new_time.hours ≤ 23) := by
  induction h with
  | init => exact ⟨by decide, by decide⟩
  | next e s _ he ih => exact step_time_range sgn e s he ih

theorem C13_time_range_invariant_witness :
    ReachableBcd true (step true (Event.tick bus_12_23_59) setup) ∧
    (step true (Event.tick bus_12_23_59) setup).actual_time
      = { seconds := 59, minutes := 23, hours := 12 } ∧
    ((0 ≤ (step true (Event.tick bus_12_23_59) setup).actual_time.seconds ∧
      (step true (Event.tick bus_12_23_59) setup).actual_time.seconds ≤ 59 ∧
      0 ≤ (step true (Event.tick bus_12_23_59) setup).actual_time.minutes ∧
      (step true (Event.tick bus_12_23_59) setup).actual_time.minutes ≤ 59 ∧
      0 ≤ (step true (Event.tick bus_12_23_59) setup).actual_time.hours ∧
      (step true (Event.tick bus_12_23_59) setup).actual_time.hours ≤ 23) ∧
    (0 ≤ (step true (Event.tick bus_12_23_59) setup).new_time.seconds ∧
      (step true (Event.tick bus_12_23_59) setup).new_time.seconds ≤ 59 ∧
      0 ≤ (step true (Event.tick bus_12_23_59) setup).new_time.minutes ∧
      (step true (Event.tick bus_12_23_59) setup).new_time.minutes ≤ 59 ∧
      0 ≤ (step true (Event.tick bus_12_23_59) setup).new_time.hours ∧
      (step true (Event.tick bus_12_23_59) setup).new_time.hours ≤ 23)) :=
  ⟨ReachableBcd.next _ _ ReachableBcd.init (by decide),
   by decide,
   C13_time_range_invariant true _ (ReachableBcd.next _ _ ReachableBcd.init (by decide))⟩

/-! ## C14: cursor wraparound -/

theorem tick_342_right (sgn : Bool) (bus : Bus) (s : State)
    (hm : s.menu_index = 342) (hb : s.button_pressed = Button.RIGHT)
    (h0 : 0 ≤ s.cursor) (h1 : s.cursor ≤ 4) :
    fsm_menu sgn bus s = ({ s with cursor := (s.cursor + 1) % 5 }, []) := by
  have e : toChar sgn (Int.tmod (s.cursor + 1) 5) = (s.cursor + 1) % 5 := by
    rw [tmod_nonneg _ _ (by omega) (by omega), toChar_small sgn _ (by omega) (by omega)]
  simp [fsm_menu, hm, case_342, hb, e]

theorem tick_342_left (sgn : Bool) (bus : Bus) (s : State)
    (hm : s.menu_index = 342) (hb : s.button_pressed = Button.LEFT)
    (h0 : 0 ≤ s.cursor) (h1 : s.cursor ≤ 4) :
    fsm_menu sgn bus s = ({ s with cursor := (s.cursor - 1) % 5 }, []) := by
  have e : toChar sgn (Int.tmod (s.cursor + 5 - 1) 5) = (s.cursor - 1) % 5 := by
    rw [tmod_nonneg _ _ (by omega) (by omega), toChar_small sgn _ (by omega) (by omega)]
    omega
  simp [fsm_menu, hm, case_342, hb, e]

theorem tick_352_right (sgn : Bool) (bus : Bus) (s : State)
    (hm : s.menu_index = 352) (hb : s.button_pressed = Button.RIGHT)
    (h0 : 0 ≤ s.cursor) (h1 : s.cursor ≤ 9) :
    fsm_menu sgn bus s = ({ s with cursor := (s.cursor + 1) % 10 }, []) := by
  have e : toChar sgn (Int.tmod (s.cursor + 1) 10) = (s.cursor + 1) % 10 := by
    rw [tmod_nonneg _ _ (by omega) (by omega), toChar_small sgn _ (by omega) (by omega)]
  simp [fsm_menu, hm, case_352, hb, e]

theorem tick_352_left (sgn : Bool) (bus : Bus) (s : State)
    (hm : s.menu_index = 352) (hb : s.button_pressed = Button.LEFT)
    (h0 : 0 ≤ s.cursor) (h1 : s.cursor ≤ 9) :
    fsm_menu sgn bus s = ({ s with cursor := (s.cursor - 1) % 10 }, []) := by
  have e : toChar sgn (Int.tmod (s.cursor + 10 - 1) 10) = (s.cursor - 1) % 10 := by
    rw [tmod_nonneg _ _ (by omega) (by omega), toChar_small sgn _ (by omega) (by omega)]
    omega
  simp [fsm_menu, hm, case_352, hb, e]

theorem right_ticks_342 (sgn : Bool) :
    ∀ (buses : List Bus) (s : State),
      s.menu_index = 342 → s.button_pressed = Button.RIGHT → 0 ≤ s.cursor → s.cursor ≤ 4 →
      run sgn (ticks buses) s = { s with cursor := (s.cursor + buses.length) % 5 } := by
  intro buses
  induction buses with
  | nil =>
    intro s hm hb h0 h1
    have e : (s.cursor + (([] : List Bus).length : Int)) % 5 = s.cursor := by
      simp only [List.length_nil, Nat.cast_zero]; omega
    rw [e]
    rfl
  | cons b rest ih =>
    intro s hm hb h0 h1
    simp only [ticks, List.map_cons, run, step]
    rw [tick_342_right sgn b s hm hb h0 h1]
    have hi := ih { s with cursor := (s.cursor + 1) % 5 } hm hb
      (by simp only []; omega) (by simp only []; omega)
    simp only [ticks] at hi
    rw [hi]
    have e : ((s.cursor + 1) % 5 + (rest.length : Int)) % 5
        = (s.cursor + ((b :: rest).length : Int)) % 5 := by
      simp only [List.length_cons]
      push_cast
      omega
    simp only [e]

theorem right_ticks_352 (sgn : Bool) :
    ∀ (buses : List Bus) (s : State),
      s.menu_index = 352 → s.button_pressed = Button.RIGHT → 0 ≤ s.cursor → s.cursor ≤ 9 →
      run sgn (ticks buses) s = { s with cursor := (s.cursor + buses.length) % 10 } := by
  intro buses
  induction buses with
  | nil =>
    intro s hm hb h0 h1
    have e : (s.cursor + (([] : List Bus).length : Int)) % 10 = s.cursor := by
      simp only [List.length_nil, Nat.cast_zero]; omega
    rw [e]
    rfl
  | cons b rest ih =>
    intro s hm hb h0 h1
    simp only [ticks, List.map_cons, run, step]
    rw [tick_352_right sgn b s hm hb h0 h1]
    have hi := ih { s with cursor := (s.cursor + 1) % 10 } hm hb
      (by simp only []; omega) (by simp only []; omega)
    simp only [ticks] at hi
    rw [hi]
    have e : ((s.cursor + 1) % 10 + (rest.length : Int)) % 10
        = (s.cursor + ((b :: rest).length : Int)) % 10 := by
      simp only [List.length_cons]
      push_cast
      omega
    simp only [e]

/-- C14: in SetTime.Edit (342), for every cursor value c in 0..4, a RIGHT tick sets the cursor
to (c + 1) mod 5, a LEFT tick sets it to (c - 1) mod 5 (4 when c = 0), and five consecutive
RIGHT ticks (any bus answers) return the whole state; in SetDate.Edit (352), for every c in
0..9, the same holds modulo 10 with ten RIGHT ticks.  A cursor move changes nothing but the
cursor: the menu state and both edit buffers are unchanged and no bus call is made. -/
theorem C14_cursor_wraparound (sgn : Bool) (s : State) :
    (s.menu_index = 342 → 0 ≤ s.cursor → s.cursor ≤ 4 →
      (∀ bus, s.button_pressed = Button.RIGHT →
        fsm_menu sgn bus s = ({ s with cursor := (s.cursor + 1) % 5 }, [])) ∧
      (∀ bus, s.button_pressed = Button.LEFT →
        fsm_menu sgn bus s = ({ s with cursor := (s.cursor - 1) % 5 }, []) ∧
        (s.cursor = 0 → (fsm_menu sgn bus s).1.cursor = 4)) ∧
      (s.button_pressed = Button.RIGHT →
        ∀ buses : List Bus, buses.length = 5 → run sgn (ticks buses) s = s)) ∧
    (s.menu_index = 352 → 0 ≤ s.cursor → s.cursor ≤ 9 →
      (∀ bus, s.button_pressed = Button.RIGHT →
        fsm_menu sgn bus s = ({ s with cursor := (s.cursor + 1) % 10 }, [])) ∧
      (∀ bus, s.button_pressed = Button.LEFT →
        fsm_menu sgn bus s = ({ s with cursor := (s.cursor - 1) % 10 }, []) ∧
        (s.cursor = 0 → (fsm_menu sgn bus s).1.cursor = 9)) ∧
      (s.button_pressed = Button.RIGHT →
        ∀ buses : List Bus, buses.length = 10 → run sgn (ticks buses) s = s)) := by
  constructor
  · intro hm h0 h1
    refine ⟨fun bus hb => tick_342_right sgn bus s hm hb h0 h1, ?_, ?_⟩
    · intro bus hb
      rw [tick_342_left sgn bus s hm hb h0 h1]
      refine ⟨rfl, ?_⟩
      intro hz
      simp only [hz]
      decide
    · intro hb buses hl
      rw [right_ticks_342 sgn buses s hm hb h0 h1, hl]
      have e : (s.cursor + ((5 : Nat) : Int)) % 5 = s.cursor := by omega
      rw [e]
  · intro hm h0 h1
    refine ⟨fun bus hb => tick_352_right sgn bus s hm hb h0 h1, ?_, ?_⟩
    · intro bus hb
      rw [tick_352_left sgn bus s hm hb h0 h1]
      refine ⟨rfl, ?_⟩
      intro hz
      simp only [hz]
      decide
    · intro hb buses hl
      rw [right_ticks_352 sgn buses s hm hb h0 h1, hl]
      have e : (s.cursor + ((10 : Nat) : Int)) % 10 = s.cursor := by omega
      rw [e]

theorem C14_cursor_wraparound_witness :
    fsm_menu true bus_up (state_edit_time Button.RIGHT 4)
      = ({ state_edit_time Button.RIGHT 4 with cursor := 0 }, []) ∧
    (fsm_menu true bus_up (state_edit_time Button.LEFT 0)).1.cursor = 4 ∧
    run true (ticks (List.replicate 5 bus_up)) (state_edit_time Button.RIGHT 2)
      = state_edit_time Button.RIGHT 2 ∧
    fsm_menu true bus_up (state_edit_date Button.RIGHT 9)
      = ({ state_edit_date Button.RIGHT 9 with cursor := 0 }, []) ∧
    (fsm_menu true bus_up (state_edit_date Button.LEFT 0)).1.cursor = 9 ∧
    run true (ticks (List.replicate 10 bus_up)) (state_edit_date Button.RIGHT 7)
      = state_edit_date Button.RIGHT 7 :=
  ⟨((C14_cursor_wraparound true (state_edit_time Button.RIGHT 4)).1
      (by decide) (by decide) (by decide)).1 bus_up (by decide),
   ((((C14_cursor_wraparound true (state_edit_time Button.LEFT 0)).1
      (by decide) (by decide) (by decide)).2.1 bus_up (by decide)).2 (by decide)),
   ((C14_cursor_wraparound true (state_edit_time Button.RIGHT 2)).1
      (by decide) (by decide) (by decide)).2.2 (by decide) (List.replicate 5 bus_up)
      (by decide),
   ((C14_cursor_wraparound true (state_edit_date Button.RIGHT 9)).2
      (by decide) (by decide) (by decide)).1 bus_up (by decide),
   ((((C14_cursor_wraparound true (state_edit_date Button.LEFT 0)).2
      (by decide) (by decide) (by decide)).2.1 bus_up (by decide)).2 (by decide)),
   ((C14_cursor_wraparound true (state_edit_date Button.RIGHT 7)).2
      (by decide) (by decide) (by decide)).2.2 (by decide) (List.replicate 10 bus_up)
      (by decide)⟩

/-! ## C15: year adjustment -/

/-- C15: in SetDate.Edit (352) with the cursor on a column from 6 to 9, for every edit year y in
2000..2099, an UP tick gives y + 1 when y < 2099 and 0 when y = 2099, and a DOWN tick gives
y - 1 when y > 2000 and 2099 when y = 2000; day and month are unchanged. -/
theorem C15_year_adjustment (sgn : Bool) (bus : Bus) (s : State)
    (hm : s.menu_index = 352) (hc0 : 6 ≤ s.cursor) (hc1 : s.cursor ≤ 9)
    (hy0 : 2000 ≤ s.new_date.year) (hy1 : s.new_date.year ≤ 2099) :
    (s.button_pressed = Button.UP →
      (fsm_menu sgn bus s).1.new_date =
        { day := s.new_date.day
          month := s.new_date.month
          year := if s.new_date.year < 2099 then s.new_date.year + 1 else 0 }) ∧
    (s.button_pressed = Button.DOWN →
      (fsm_menu sgn bus s).1.new_date =
        { day := s.new_date.day
          month := s.new_date.month
          year := if s.new_date.year > 2000 then s.new_date.year - 1 else 2099 }) := by
  have c01 : ¬ (s.cursor = 0 ∨ s.cursor = 1) := by omega
  have c34 : ¬ (s.cursor = 3 ∨ s.cursor = 4) := by omega
  have c69 : s.cursor > 5 ∧ s.cursor < 10 := by omega
  have eu : toInt16 (s.new_date.year + 1) = s.new_date.year + 1 :=
    toInt16_small _ (by omega) (by omega)
  have ed : toInt16 (s.new_date.year - 1) = s.new_date.year - 1 :=
    toInt16_small _ (by omega) (by omega)
  constructor
  · intro hb
    have e : fsm_menu sgn bus s = (case_352 sgn s, []) := by simp [fsm_menu, hm]
    rw [e]
    simp only [case_352, hb, c01, c34, c69, eu]
    simp only [reduceCtorEq, if_false, if_true, and_self, Date.mk.injEq, true_and]
    split_ifs <;> omega
  · intro hb
    have e : fsm_menu sgn bus s = (case_352 sgn s, []) := by simp [fsm_menu, hm]
    rw [e]
    simp only [case_352, hb, c01, c34, c69, ed]
    simp only [reduceCtorEq, if_false, if_true, and_self, Date.mk.injEq, true_and]
    split_ifs <;> omega

theorem C15_year_adjustment_witness :
    (fsm_menu true bus_up (state_edit_date Button.UP 6)).1.new_date
      = { day := 31, month := 12, year := 0 } ∧
    (fsm_menu true bus_up
      { state_edit_date Button.DOWN 9 with new_date := { day := 1, month := 1, year := 2000 } }
      ).1.new_date = { day := 1, month := 1, year := 2099 } :=
  ⟨(C15_year_adjustment true bus_up (state_edit_date Button.UP 6)
      (by decide) (by decide) (by decide) (by decide) (by decide)).1 (by decide),
   (C15_year_adjustment true bus_up
      { state_edit_date Button.DOWN 9 with new_date := { day := 1, month := 1, year := 2000 } }
      (by decide) (by decide) (by decide) (by decide) (by decide)).2 (by decide)⟩

/-! ## C16: entering an edit sub-machine -/

/-- C16: a tick in the SetTime navigation state (340) with button SELECT sets `new_time` equal
to `actual_time` in all three fields, sets the cursor to 0 and moves to SetTime.Display (341);
a tick in the SetDate navigation state (350) with SELECT sets `new_date` equal to `actual_date`
in all three fields, sets the cursor to 0 and moves to SetDate.Display (351).  Nothing else
changes, so `actual_time` and `actual_date` are unchanged, and no bus call is made. -/
theorem C16_enter_edit_seeds_buffer (sgn : Bool) (bus : Bus) (s : State)
    (hb : s.button_pressed = Button.SELECT) :
    (s.menu_index = 340 →
      fsm_menu sgn bus s =
        ({ s with new_time := s.actual_time, cursor := 0, menu_index := 341 }, []) ∧
      (fsm_menu sgn bus s).1.new_time.seconds = s.actual_time.seconds ∧
      (fsm_menu sgn bus s).1.new_time.minutes = s.actual_time.minutes ∧
      (fsm_menu sgn bus s).1.new_time.hours = s.actual_time.hours ∧
      (fsm_menu sgn bus s).1.actual_time = s.actual_time ∧
      (fsm_menu sgn bus s).1.actual_date = s.actual_date) ∧
    (s.menu_index = 350 →
      fsm_menu sgn bus s =
        ({ s with new_date := s.actual_date, cursor := 0, menu_index := 351 }, []) ∧
      (fsm_menu sgn bus s).1.new_date.day = s.actual_date.day ∧
      (fsm_menu sgn bus s).1.new_date.month = s.actual_date.month ∧
      (fsm_menu sgn bus s).1.new_date.year = s.actual_date.year ∧
      (fsm_menu sgn bus s).1.actual_time = s.actual_time ∧
      (fsm_menu sgn bus s).1.actual_date = s.actual_date) := by
  constructor
  · intro hm
    have e : fsm_menu sgn bus s =
        ({ s with new_time := s.actual_time, cursor := 0, menu_index := 341 }, []) := by
      simp [fsm_menu, hm, case_340, hb]
    rw [e]
    exact ⟨rfl, rfl, rfl, rfl, rfl, rfl⟩
  · intro hm
    have e : fsm_menu sgn bus s =
        ({ s with new_date := s.actual_date, cursor := 0, menu_index := 351 }, []) := by
      simp [fsm_menu, hm, case_350, hb]
    rw [e]
    exact ⟨rfl, rfl, rfl, rfl, rfl, rfl⟩

theorem C16_enter_edit_seeds_buffer_witness :
    (fsm_menu true bus_up
      { state_display with menu_index := 340, button_pressed := Button.SELECT, cursor := 3 }
      ).1.new_time = { seconds := 9, minutes := 8, hours := 7 } ∧
    (fsm_menu true bus_up
      { state_display with menu_index := 350, button_pressed := Button.SELECT, cursor := 3 }
      ).1.new_date = { day := 15, month := 6, year := 2021 } := by
  have h1 := ((C16_enter_edit_seeds_buffer true bus_up
    { state_display with menu_index := 340, button_pressed := Button.SELECT, cursor := 3 }
    (by decide)).1 (by decide)).1
  have h2 := ((C16_enter_edit_seeds_buffer true bus_up
    { state_display with menu_index := 350, button_pressed := Button.SELECT, cursor := 3 }
    (by decide)).2 (by decide)).1
  rw [h1, h2]
  exact ⟨by decide, by decide⟩

/-! ## C17: committing a date -/

/-- C17: SELECT in SetDate.Edit (352) moves to the commit-date state (210) and changes nothing
else, so no date changes; one tick in state 210 then sets `actual_date` to the edit buffer
`new_date` in day, month and year, moves to Display (300) and changes nothing else
(`new_date`, `actual_time`, `new_time` are unchanged), whatever the button symbol; neither
tick makes a bus call. -/
theorem C17_commit_date (sgn : Bool) (bus : Bus) (s : State) :
    (s.menu_index = 352 → s.button_pressed = Button.SELECT →
      fsm_menu sgn bus s = ({ s with menu_index := 210 }, [])) ∧
    (s.menu_index = 210 →
      fsm_menu sgn bus s = ({ s with actual_date := s.new_date, menu_index := 300 }, []) ∧
      (fsm_menu sgn bus s).1.actual_date.day = s.new_date.day ∧
      (fsm_menu sgn bus s).1.actual_date.month = s.new_date.month ∧
      (fsm_menu sgn bus s).1.actual_date.year = s.new_date.year ∧
      (fsm_menu sgn bus s).1.new_date = s.new_date ∧
      (fsm_menu sgn bus s).1.actual_time = s.actual_time ∧
      (fsm_menu sgn bus s).1.new_time = s.new_time ∧
      (fsm_menu sgn bus s).1.menu_index = 300 ∧
      (fsm_menu sgn bus s).2 = []) := by
  constructor
  · intro hm hb
    simp [fsm_menu, hm, case_352, hb]
  · intro hm
    have e : fsm_menu sgn bus s =
        ({ s with actual_date := s.new_date, menu_index := 300 }, []) := by
      simp [fsm_menu, hm]
    rw [e]
    exact ⟨rfl, rfl, rfl, rfl, rfl, rfl, rfl, rfl, rfl⟩

theorem C17_commit_date_witness :
    fsm_menu true bus_up (state_edit_date Button.SELECT 4)
      = ({ state_edit_date Button.SELECT 4 with menu_index := 210 }, []) ∧
    (fsm_menu true bus_up { state_edit_date Button.UP 4 with menu_index := 210 }).1.actual_date
      = { day := 31, month := 12, year := 2099 } := by
  have h1 := (C17_commit_date true bus_up (state_edit_date Button.SELECT 4)).1
    (by decide) (by decide)
  have h2 := ((C17_commit_date true bus_up
    { state_edit_date Button.UP 4 with menu_index := 210 }).2 (by decide)).1
  rw [h1, h2]
  exact ⟨rfl, by decide⟩

/-! ## C18: the default branch -/

/-- C18: for every menu state identifier that is not one of the fourteen named states, one tick
of `fsm_menu` sets the menu state to Display (300) and changes nothing else (time and date
store, edit buffers, cursor, button symbol), whatever the button symbol and the bus answers;
no bus call is made. -/
theorem C18_unknown_state_resets (sgn : Bool) (bus : Bus) (s : State)
    (h : s.menu_index ∉ named_states) :
    fsm_menu sgn bus s = ({ s with menu_index := 300 }, []) := by
  simp only [named_states, List.mem_cons, List.mem_singleton, List.not_mem_nil, or_false,
    not_or] at h
  obtain ⟨c100, c110, c200, c210, c300, c310, c320, c330, c340, c341, c342, c350, c351,
    c352⟩ := h
  unfold fsm_menu
  rw [if_neg c100, if_neg c110, if_neg c200, if_neg c210, if_neg c300, if_neg c310,
    if_neg c320, if_neg c330, if_neg c340, if_neg c341, if_neg c342, if_neg c350,
    if_neg c351, if_neg c352]

theorem C18_unknown_state_resets_witness :
    fsm_menu true bus_12_23_59 { state_edit_date Button.SELECT 4 with menu_index := 343 }
      = ({ state_edit_date Button.SELECT 4 with menu_index := 300 }, []) := by
  have h := C18_unknown_state_resets true bus_12_23_59
    { state_edit_date Button.SELECT 4 with menu_index := 343 } (by decide)
  rw [h]

/-! ## C19: the cursor column selects the edited field -/

theorem tick_351 (sgn : Bool) (bus : Bus) (s : State) (hm : s.menu_index = 351) :
    fsm_menu sgn bus s = ({ s with menu_index := 352 }, []) := by
  simp [fsm_menu, hm]

theorem tick_342_adjust (sgn : Bool) (bus : Bus) (s : State) (hm : s.menu_index = 342)
    (hb : s.button_pressed = Button.UP ∨ s.button_pressed = Button.DOWN) :
    ((s.cursor = 0 ∨ s.cursor = 1) →
      fsm_menu sgn bus s =
        ({ s with
           new_time := { s.new_time with hours := (fsm_menu sgn bus s).1.new_time.hours }
           menu_index := 341 }, [])) ∧
    ((s.cursor = 3 ∨ s.cursor = 4) →
      fsm_menu sgn bus s =
        ({ s with
           new_time := { s.new_time with minutes := (fsm_menu sgn bus s).1.new_time.minutes }
           menu_index := 341 }, [])) ∧
    (s.cursor = 2 → fsm_menu sgn bus s = (s, [])) := by
  obtain ⟨a_t, a_d, mi, n_t, n_d, bp, cu⟩ := s
  simp only at hm hb
  subst hm
  refine ⟨?_, ?_, ?_⟩
  · intro hc
    simp only at hc
    rcases hc with hc | hc <;> subst hc <;> rcases hb with hb | hb <;> subst hb <;>
      simp [fsm_menu, case_342]
  · intro hc
    simp only at hc
    rcases hc with hc | hc <;> subst hc <;> rcases hb with hb | hb <;> subst hb <;>
      simp [fsm_menu, case_342]
  · intro hc
    simp only at hc
    subst hc
    rcases hb with hb | hb <;> subst hb <;> simp [fsm_menu, case_342]

theorem tick_352_adjust (sgn : Bool) (bus : Bus) (s : State) (hm : s.menu_index = 352)
    (hb : s.button_pressed = Button.UP ∨ s.button_pressed = Button.DOWN) :
    ((s.cursor = 0 ∨ s.cursor = 1) →
      fsm_menu sgn bus s =
        ({ s with
           new_date := { s.new_date with day := (fsm_menu sgn bus s).1.new_date.day }
           menu_index := 351 }, [])) ∧
    ((s.cursor = 3 ∨ s.cursor = 4) →
      fsm_menu sgn bus s =
        ({ s with
           new_date := { s.new_date with month := (fsm_menu sgn bus s).1.new_date.month }
           menu_index := 351 }, [])) ∧
    (6 ≤ s.cursor ∧ s.cursor ≤ 9 →
      fsm_menu sgn bus s =
        ({ s with
           new_date := { s.new_date with year := (fsm_menu sgn bus s).1.new_date.year }
           menu_index := 351 }, [])) ∧
    (s.cursor = 2 ∨ s.cursor = 5 → fsm_menu sgn bus s = (s, [])) := by
  obtain ⟨a_t, a_d, mi, n_t, n_d, bp, cu⟩ := s
  simp only at hm hb
  subst hm
  refine ⟨?_, ?_, ?_, ?_⟩
  · intro hc
    simp only at hc
    rcases hc with hc | hc <;> subst hc <;> rcases hb with hb | hb <;> subst hb <;>
      simp [fsm_menu, case_352]
  · intro hc
    simp only at hc
    rcases hc with hc | hc <;> subst hc <;> rcases hb with hb | hb <;> subst hb <;>
      simp [fsm_menu, case_352]
  · intro hc
    simp only at hc
    have c01 : ¬ (cu = 0 ∨ cu = 1) := by omega
    have c34 : ¬ (cu = 3 ∨ cu = 4) := by omega
    have c69 : cu > 5 ∧ cu < 10 := by omega
    rcases hb with hb | hb <;> subst hb <;> simp [fsm_menu, case_352, c01, c34, c69]
  · intro hc
    simp only at hc
    rcases hc with hc | hc <;> subst hc <;> rcases hb with hb | hb <;> subst hb <;>
      simp [fsm_menu, case_352]

theorem tick_352_month_wrap (sgn : Bool) (bus : Bus) (s : State) (hm : s.menu_index = 352)
    (hc : s.cursor = 3 ∨ s.cursor = 4) :
    (s.button_pressed = Button.UP → s.new_date.month = 12 →
      (fsm_menu sgn bus s).1.new_date.month = 1) ∧
    (s.button_pressed = Button.DOWN → s.new_date.month = 1 →
      (fsm_menu sgn bus s).1.new_date.month = 12) := by
  have c01 : ¬ (s.cursor = 0 ∨ s.cursor = 1) := by omega
  have e13 : toChar sgn 13 = 13 := toChar_small sgn _ (by omega) (by omega)
  have e0 : toChar sgn 0 = 0 := toChar_small sgn _ (by omega) (by omega)
  constructor
  · intro hb h12
    simp [fsm_menu, hm, case_352, hb, hc, c01, h12, e13]
  · intro hb h1
    simp [fsm_menu, hm, case_352, hb, hc, c01, h1, e0]

theorem tick_342_value (sgn : Bool) (bus : Bus) (s : State) (hm : s.menu_index = 342) :
    (s.button_pressed = Button.UP → (s.cursor = 0 ∨ s.cursor = 1) →
      fsm_menu sgn bus s =
        ({ s with
           new_time :=
             { s.new_time with hours := toChar sgn (Int.tmod (s.new_time.hours + 1) 24) }
           menu_index := 341 }, [])) ∧
    (s.button_pressed = Button.UP → (s.cursor = 3 ∨ s.cursor = 4) →
      fsm_menu sgn bus s =
        ({ s with
           new_time :=
             { s.new_time with minutes := toChar sgn (Int.tmod (s.new_time.minutes + 1) 60) }
           menu_index := 341 }, [])) ∧
    (s.button_pressed = Button.DOWN → (s.cursor = 0 ∨ s.cursor = 1) →
      fsm_menu sgn bus s =
        ({ s with
           new_time :=
             { s.new_time with
               hours := toChar sgn (Int.tmod (s.new_time.hours + 24 - 1) 24) }
           menu_index := 341 }, [])) ∧
    (s.button_pressed = Button.DOWN → (s.cursor = 3 ∨ s.cursor = 4) →
      fsm_menu sgn bus s =
        ({ s with
           new_time :=
             { s.new_time with
               minutes := toChar sgn (Int.tmod (s.new_time.minutes + 60 - 1) 60) }
           menu_index := 341 }, [])) := by
  obtain ⟨a_t, a_d, mi, n_t, n_d, bp, cu⟩ := s
  simp only at hm
  subst hm
  refine ⟨?_, ?_, ?_, ?_⟩ <;>
  · intro hb hc
    simp only at hb hc
    subst hb
    rcases hc with hc | hc <;> subst hc <;> simp [fsm_menu, case_342]

theorem tick_352_value (sgn : Bool) (bus : Bus) (s : State) (hm : s.menu_index = 352) :
    (s.button_pressed = Button.UP → (s.cursor = 0 ∨ s.cursor = 1) →
      fsm_menu sgn bus s =
        ({ s with
           new_date := { s.new_date with day := day_up sgn s.new_date }
           menu_index := 351 }, [])) ∧
    (s.button_pressed = Button.UP → (s.cursor = 3 ∨ s.cursor = 4) →
      fsm_menu sgn bus s =
        ({ s with
           new_date :=
             { s.new_date with
               month := if toChar sgn (s.new_date.month + 1) > 12 then 1
                        else toChar sgn (s.new_date.month + 1) }
           menu_index := 351 }, [])) ∧
    (s.button_pressed = Button.UP → (6 ≤ s.cursor ∧ s.cursor ≤ 9) →
      fsm_menu sgn bus s =
        ({ s with
           new_date :=
             { s.new_date with
               year := if toInt16 (s.new_date.year + 1) > 2099 then 0
                       else toInt16 (s.new_date.year + 1) }
           menu_index := 351 }, [])) ∧
    (s.button_pressed = Button.DOWN → (s.cursor = 0 ∨ s.cursor = 1) →
      fsm_menu sgn bus s =
        ({ s with
           new_date := { s.new_date with day := day_down sgn s.new_date }
           menu_index := 351 }, [])) ∧
    (s.button_pressed = Button.DOWN → (s.cursor = 3 ∨ s.cursor = 4) →
      fsm_menu sgn bus s =
        ({ s with
           new_date :=
             { s.new_date with
               month := if toChar sgn (s.new_date.month - 1) < 1 then 12
                        else toChar sgn (s.new_date.month - 1) }
           menu_index := 351 }, [])) ∧
    (s.button_pressed = Button.DOWN → (6 ≤ s.cursor ∧ s.cursor ≤ 9) →
      fsm_menu sgn bus s =
        ({ s with
           new_date :=
             { s.new_date with
               year := if toInt16 (s.new_date.year - 1) < 2000 then 2099
                       else toInt16 (s.new_date.year - 1) }
           menu_index := 351 }, [])) := by
  obtain ⟨a_t, a_d, mi, n_t, n_d, bp, cu⟩ := s
  simp only at hm
  subst hm
  refine ⟨?_, ?_, ?_, ?_, ?_, ?_⟩
  · intro hb hc
    simp only at hb hc
    subst hb
    rcases hc with hc | hc <;> subst hc <;> simp [fsm_menu, case_352]
  · intro hb hc
    simp only at hb hc
    subst hb
    rcases hc with hc | hc <;> subst hc <;> simp [fsm_menu, case_352]
  · intro hb hc
    simp only at hb hc
    subst hb
    have c01 : ¬ (cu = 0 ∨ cu = 1) := by omega
    have c34 : ¬ (cu = 3 ∨ cu = 4) := by omega
    have c69 : cu > 5 ∧ cu < 10 := by omega
    simp [fsm_menu, case_352, c01, c34, c69]
  · intro hb hc
    simp only at hb hc
    subst hb
    rcases hc with hc | hc <;> subst hc <;> simp [fsm_menu, case_352]
  · intro hb hc
    simp only at hb hc
    subst hb
    rcases hc with hc | hc <;> subst hc <;> simp [fsm_menu, case_352]
  · intro hb hc
    simp only at hb hc
    subst hb
    have c01 : ¬ (cu = 0 ∨ cu = 1) := by omega
    have c34 : ¬ (cu = 3 ∨ cu = 4) := by omega
    have c69 : cu > 5 ∧ cu < 10 := by omega
    simp [fsm_menu, case_352, c01, c34, c69]

theorem day_up_below_28 (sgn : Bool) (d : Date) (h0 : 1 ≤ d.day) (h1 : d.day < 28) :
    day_up sgn d = d.day + 1 := by
  unfold day_up
  rw [toChar_small sgn (d.day + 1) (by omega) (by omega)]
  simp only []
  split_ifs <;> omega

theorem day_up_changes (sgn : Bool) (d : Date) (h0 : 1 ≤ d.day) (h1 : d.day ≤ 31) :
    day_up sgn d ≠ d.day := by
  unfold day_up
  rw [toChar_small sgn (d.day + 1) (by omega) (by omega)]
  simp only []
  split_ifs <;> omega

theorem day_down_above_1 (sgn : Bool) (d : Date) (h0 : 1 < d.day) (h1 : d.day ≤ 31) :
    day_down sgn d = d.day - 1 := by
  unfold day_down
  rw [toChar_small sgn (d.day - 1) (by omega) (by omega)]
  simp only []
  split_ifs <;> omega

theorem day_down_changes (sgn : Bool) (d : Date) (h0 : 1 ≤ d.day) (h1 : d.day ≤ 31) :
    day_down sgn d ≠ d.day := by
  unfold day_down
  rw [toChar_small sgn (d.day - 1) (by omega) (by omega)]
  simp only []
  split_ifs <;> omega

theorem tick_342_in_range (sgn : Bool) (bus : Bus) (s : State) (hm : s.menu_index = 342) :
    ((s.cursor = 0 ∨ s.cursor = 1) → 0 ≤ s.new_time.hours → s.new_time.hours ≤ 23 →
      (s.button_pressed = Button.UP →
        (fsm_menu sgn bus s).1.new_time.hours = (s.new_time.hours + 1) % 24) ∧
      (s.button_pressed = Button.DOWN →
        (fsm_menu sgn bus s).1.new_time.hours = (s.new_time.hours - 1) % 24) ∧
      (s.button_pressed = Button.UP ∨ s.button_pressed = Button.DOWN →
        (fsm_menu sgn bus s).1.new_time.hours ≠ s.new_time.hours)) ∧
    ((s.cursor = 3 ∨ s.cursor = 4) → 0 ≤ s.new_time.minutes → s.new_time.minutes ≤ 59 →
      (s.button_pressed = Button.UP →
        (fsm_menu sgn bus s).1.new_time.minutes = (s.new_time.minutes + 1) % 60) ∧
      (s.button_pressed = Button.DOWN →
        (fsm_menu sgn bus s).1.new_time.minutes = (s.new_time.minutes - 1) % 60) ∧
      (s.button_pressed = Button.UP ∨ s.button_pressed = Button.DOWN →
        (fsm_menu sgn bus s).1.new_time.minutes ≠ s.new_time.minutes)) := by
  constructor
  · intro hc h0 h1
    have hu := fun hb => tick_342_hours_up sgn bus s hm hb hc h0 h1
    have hd := fun hb => tick_342_hours_down sgn bus s hm hb hc h0 h1
    refine ⟨fun hb => by rw [hu hb], fun hb => by rw [hd hb], ?_⟩
    intro hb
    rcases hb with hb | hb
    · rw [hu hb]; simp only []; omega
    · rw [hd hb]; simp only []; omega
  · intro hc h0 h1
    have hu := fun hb => tick_342_minutes_up sgn bus s hm hb hc h0 h1
    have hd := fun hb => tick_342_minutes_down sgn bus s hm hb hc h0 h1
    refine ⟨fun hb => by rw [hu hb], fun hb => by rw [hd hb], ?_⟩
    intro hb
    rcases hb with hb | hb
    · rw [hu hb]; simp only []; omega
    · rw [hd hb]; simp only []; omega

theorem tick_352_in_range (sgn : Bool) (bus : Bus) (s : State) (hm : s.menu_index = 352) :
    ((s.cursor = 0 ∨ s.cursor = 1) → 1 ≤ s.new_date.day → s.new_date.day ≤ 31 →
      (s.button_pressed = Button.UP → s.new_date.day < 28 →
        (fsm_menu sgn bus s).1.new_date.day = s.new_date.day + 1) ∧
      (s.button_pressed = Button.DOWN → 1 < s.new_date.day →
        (fsm_menu sgn bus s).1.new_date.day = s.new_date.day - 1) ∧
      (s.button_pressed = Button.UP ∨ s.button_pressed = Button.DOWN →
        (fsm_menu sgn bus s).1.new_date.day ≠ s.new_date.day)) ∧
    ((s.cursor = 3 ∨ s.cursor = 4) → 1 ≤ s.new_date.month → s.new_date.month ≤ 12 →
      (s.button_pressed = Button.UP →
        (fsm_menu sgn bus s).1.new_date.month =
          if s.new_date.month = 12 then 1 else s.new_date.month + 1) ∧
      (s.button_pressed = Button.DOWN →
        (fsm_menu sgn bus s).1.new_date.month =
          if s.new_date.month = 1 then 12 else s.new_date.month - 1) ∧
      (s.button_pressed = Button.UP ∨ s.button_pressed = Button.DOWN →
        (fsm_menu sgn bus s).1.new_date.month ≠ s.new_date.month)) ∧
    ((6 ≤ s.cursor ∧ s.cursor ≤ 9) → 2000 ≤ s.new_date.year → s.new_date.year ≤ 2099 →
      (s.button_pressed = Button.UP →
        (fsm_menu sgn bus s).1.new_date.year =
          if s.new_date.year < 2099 then s.new_date.year + 1 else 0) ∧
      (s.button_pressed = Button.DOWN →
        (fsm_menu sgn bus s).1.new_date.year =
          if s.new_date.year > 2000 then s.new_date.year - 1 else 2099) ∧
      (s.button_pressed = Button.UP ∨ s.button_pressed = Button.DOWN →
        (fsm_menu sgn bus s).1.new_date.year ≠ s.new_date.year)) := by
  obtain ⟨v1, v2, v3, v4, v5, v6⟩ := tick_352_value sgn bus s hm
  refine ⟨?_, ?_, ?_⟩
  · intro hc h0 h1
    refine ⟨?_, ?_, ?_⟩
    · intro hb hlt
      rw [v1 hb hc]
      exact day_up_below_28 sgn s.new_date h0 hlt
    · intro hb hgt
      rw [v4 hb hc]
      exact day_down_above_1 sgn s.new_date hgt h1
    · intro hb
      rcases hb with hb | hb
      · rw [v1 hb hc]; exact day_up_changes sgn s.new_date h0 h1
      · rw [v4 hb hc]; exact day_down_changes sgn s.new_date h0 h1
  · intro hc h0 h1
    have eu : toChar sgn (s.new_date.month + 1) = s.new_date.month + 1 :=
      toChar_small sgn _ (by omega) (by omega)
    have ed : toChar sgn (s.new_date.month - 1) = s.new_date.month - 1 :=
      toChar_small sgn _ (by omega) (by omega)
    refine ⟨?_, ?_, ?_⟩
    · intro hb
      rw [v2 hb hc, eu]
      simp only []
      split_ifs <;> omega
    · intro hb
      rw [v5 hb hc, ed]
      simp only []
      split_ifs <;> omega
    · intro hb
      rcases hb with hb | hb
      · rw [v2 hb hc, eu]; simp only []; split_ifs <;> omega
      · rw [v5 hb hc, ed]; simp only []; split_ifs <;> omega
  · intro hc h0 h1
    have eu : toInt16 (s.new_date.year + 1) = s.new_date.year + 1 :=
      toInt16_small _ (by omega) (by omega)
    have ed : toInt16 (s.new_date.year - 1) = s.new_date.year - 1 :=
      toInt16_small _ (by omega) (by omega)
    refine ⟨?_, ?_, ?_⟩
    · intro hb
      rw [v3 hb hc, eu]
      simp only []
      split_ifs <;> omega
    · intro hb
      rw [v6 hb hc, ed]
      simp only []
      split_ifs <;> omega
    · intro hb
      rcases hb with hb | hb
      · rw [v3 hb hc, eu]; simp only []; split_ifs <;> omega
      · rw [v6 hb hc, ed]; simp only []; split_ifs <;> omega

/-- C19: in SetTime.Edit (342), with the cursor on column 0 or 1 an UP tick stores
`(hours + 1) % 24` and a DOWN tick `(hours + 24 - 1) % 24` in `new_time.hours`, with the cursor
on column 3 or 4 an UP tick stores `(minutes + 1) % 60` and a DOWN tick
`(minutes + 60 - 1) % 60` in `new_time.minutes` (C arithmetic, stored in a `char`); the tick
changes nothing else but the menu state, which becomes SetTime.Display (341); for hours in
0..23 (minutes in 0..59) the new value is (h + 1) mod 24 resp. (h - 1) mod 24 and differs from
the old one.  With the cursor on column 2 an UP or DOWN tick changes nothing and the state
stays 342.  In SetDate.Edit (352), with the cursor on column 0 or 1 an UP tick stores `day_up`
and a DOWN tick `day_down` of the edit date in the day, on column 3 or 4 the month is
incremented with 12 wrapping to 1 (UP) or decremented with 1 wrapping to 12 (DOWN), on columns
6..9 the year is incremented with 0 after 2099 (UP) or decremented with 2099 below 2000 (DOWN);
the tick changes nothing else but the menu state, which becomes SetDate.Display (351); for a
day in 1..31 the new day is day + 1 below 28 (UP), day - 1 above 1 (DOWN) and always differs
from the old one, and for a month in 1..12 and a year in 2000..2099 the new value differs from
the old one.  With the cursor on column 2 or 5 an UP or DOWN tick changes nothing and the state
stays 352.  SetTime.Display (341) and SetDate.Display (351) always advance to their Edit state
(342, 352) and change nothing else.  None of these ticks makes a bus call. -/
theorem C19_cursor_selects_field (sgn : Bool) (bus : Bus) (s : State) :
    (s.menu_index = 342 →
      (((s.button_pressed = Button.UP → (s.cursor = 0 ∨ s.cursor = 1) →
        fsm_menu sgn bus s =
          ({ s with
             new_time :=
               { s.new_time with hours := toChar sgn (Int.tmod (s.new_time.hours + 1) 24) }
             menu_index := 341 }, [])) ∧
      (s.button_pressed = Button.UP → (s.cursor = 3 ∨ s.cursor = 4) →
        fsm_menu sgn bus s =
          ({ s with
             new_time :=
               { s.new_time with minutes := toChar sgn (Int.tmod (s.new_time.minutes + 1) 60) }
             menu_index := 341 }, [])) ∧
      (s.button_pressed = Button.DOWN → (s.cursor = 0 ∨ s.cursor = 1) →
        fsm_menu sgn bus s =
          ({ s with
             new_time :=
               { s.new_time with
                 hours := toChar sgn (Int.tmod (s.new_time.hours + 24 - 1) 24) }
             menu_index := 341 }, [])) ∧
      (s.button_pressed = Button.DOWN → (s.cursor = 3 ∨ s.cursor = 4) →
        fsm_menu sgn bus s =
          ({ s with
             new_time :=
               { s.new_time with
                 minutes := toChar sgn (Int.tmod (s.new_time.minutes + 60 - 1) 60) }
             menu_index := 341 }, []))) ∧
      (s.button_pressed = Button.UP ∨ s.button_pressed = Button.DOWN → s.cursor = 2 →
        fsm_menu sgn bus s = (s, [])) ∧
      (((s.cursor = 0 ∨ s.cursor = 1) → 0 ≤ s.new_time.hours → s.new_time.hours ≤ 23 →
        (s.button_pressed = Button.UP →
          (fsm_menu sgn bus s).1.new_time.hours = (s.new_time.hours + 1) % 24) ∧
        (s.button_pressed = Button.DOWN →
          (fsm_menu sgn bus s).1.new_time.hours = (s.new_time.hours - 1) % 24) ∧
        (s.button_pressed = Button.UP ∨ s.button_pressed = Button.DOWN →
          (fsm_menu sgn bus s).1.new_time.hours ≠ s.new_time.hours)) ∧
      ((s.cursor = 3 ∨ s.cursor = 4) → 0 ≤ s.new_time.minutes → s.new_time.minutes ≤ 59 →
        (s.button_pressed = Button.UP →
          (fsm_menu sgn bus s).1.new_time.minutes = (s.new_time.minutes + 1) % 60) ∧
        (s.button_pressed = Button.DOWN →
          (fsm_menu sgn bus s).1.new_time.minutes = (s.new_time.minutes - 1) % 60) ∧
        (s.button_pressed = Button.UP ∨ s.button_pressed = Button.DOWN →
          (fsm_menu sgn bus s).1.new_time.minutes ≠ s.new_time.minutes))))) ∧
    (s.menu_index = 352 →
      (((s.button_pressed = Button.UP → (s.cursor = 0 ∨ s.cursor = 1) →
        fsm_menu sgn bus s =
          ({ s with
             new_date := { s.new_date with day := day_up sgn s.new_date }
             menu_index := 351 }, [])) ∧
      (s.button_pressed = Button.UP → (s.cursor = 3 ∨ s.cursor = 4) →
        fsm_menu sgn bus s =
          ({ s with
             new_date :=
               { s.new_date with
                 month := if toChar sgn (s.new_date.month + 1) > 12 then 1
                          else toChar sgn (s.new_date.month + 1) }
             menu_index := 351 }, [])) ∧
      (s.button_pressed = Button.UP → (6 ≤ s.cursor ∧ s.cursor ≤ 9) →
        fsm_menu sgn bus s =
          ({ s with
             new_date :=
               { s.new_date with
                 year := if toInt16 (s.new_date.year + 1) > 2099 then 0
                         else toInt16 (s.new_date.year + 1) }
             menu_index := 351 }, [])) ∧
      (s.button_pressed = Button.DOWN → (s.cursor = 0 ∨ s.cursor = 1) →
        fsm_menu sgn bus s =
          ({ s with
             new_date := { s.new_date with day := day_down sgn s.new_date }
             menu_index := 351 }, [])) ∧
      (s.button_pressed = Button.DOWN → (s.cursor = 3 ∨ s.cursor = 4) →
        fsm_menu sgn bus s =
          ({ s with
             new_date :=
               { s.new_date with
                 month := if toChar sgn (s.new_date.month - 1) < 1 then 12
                          else toChar sgn (s.new_date.month - 1) }
             menu_index := 351 }, [])) ∧
      (s.button_pressed = Button.DOWN → (6 ≤ s.cursor ∧ s.cursor ≤ 9) →
        fsm_menu sgn bus s =
          ({ s with
             new_date :=
               { s.new_date with
                 year := if toInt16 (s.new_date.year - 1) < 2000 then 2099
                         else toInt16 (s.new_date.year - 1) }
             menu_index := 351 }, []))) ∧
      (s.button_pressed = Button.UP ∨ s.button_pressed = Button.DOWN →
        s.cursor = 2 ∨ s.cursor = 5 → fsm_menu sgn bus s = (s, [])) ∧
      (((s.cursor = 0 ∨ s.cursor = 1) → 1 ≤ s.new_date.day → s.new_date.day ≤ 31 →
        (s.button_pressed = Button.UP → s.new_date.day < 28 →
          (fsm_menu sgn bus s).1.new_date.day = s.new_date.day + 1) ∧
        (s.button_pressed = Button.DOWN → 1 < s.new_date.day →
          (fsm_menu sgn bus s).1.new_date.day = s.new_date.day - 1) ∧
        (s.button_pressed = Button.UP ∨ s.button_pressed = Button.DOWN →
          (fsm_menu sgn bus s).1.new_date.day ≠ s.new_date.day)) ∧
      ((s.cursor = 3 ∨ s.cursor = 4) → 1 ≤ s.new_date.month → s.new_date.month ≤ 12 →
        (s.button_pressed = Button.UP →
          (fsm_menu sgn bus s).1.new_date.month =
            if s.new_date.month = 12 then 1 else s.new_date.month + 1) ∧
        (s.button_pressed = Button.DOWN →
          (fsm_menu sgn bus s).1.new_date.month =
            if s.new_date.month = 1 then 12 else s.new_date.month - 1) ∧
        (s.button_pressed = Button.UP ∨ s.button_pressed = Button.DOWN →
          (fsm_menu sgn bus s).1.new_date.month ≠ s.new_date.month)) ∧
      ((6 ≤ s.cursor ∧ s.cursor ≤ 9) → 2000 ≤ s.new_date.year → s.new_date.year ≤ 2099 →
        (s.button_pressed = Button.UP →
          (fsm_menu sgn bus s).1.new_date.year =
            if s.new_date.year < 2099 then s.new_date.year + 1 else 0) ∧
        (s.button_pressed = Button.DOWN →
          (fsm_menu sgn bus s).1.new_date.year =
            if s.new_date.year > 2000 then s.new_date.year - 1 else 2099) ∧
        (s.button_pressed = Button.UP ∨ s.button_pressed = Button.DOWN →
          (fsm_menu sgn bus s).1.new_date.year ≠ s.new_date.year))))) ∧
    (s.menu_index = 341 → fsm_menu sgn bus s = ({ s with menu_index := 342 }, [])) ∧
    (s.menu_index = 351 → fsm_menu sgn bus s = ({ s with menu_index := 352 }, [])) := by
  refine ⟨?_, ?_, tick_341 sgn bus s, tick_351 sgn bus s⟩
  · intro hm
    refine ⟨tick_342_value sgn bus s hm, ?_, tick_342_in_range sgn bus s hm⟩
    intro hb hc
    exact (tick_342_adjust sgn bus s hm hb).2.2 hc
  · intro hm
    refine ⟨tick_352_value sgn bus s hm, ?_, tick_352_in_range sgn bus s hm⟩
    intro hb hc
    exact (tick_352_adjust sgn bus s hm hb).2.2.2 hc

theorem C19_cursor_selects_field_witness :
    (fsm_menu true bus_up (state_edit_time Button.UP 1)).1.new_time.hours = (23 + 1) % 24 ∧
    (fsm_menu true bus_up (state_edit_time Button.DOWN 4)).1.new_time.minutes
      = (59 - 1) % 60 ∧
    fsm_menu true bus_up (state_edit_time Button.DOWN 2)
      = (state_edit_time Button.DOWN 2, []) ∧
    fsm_menu true bus_up (state_edit_date Button.DOWN 0) =
      ({ state_edit_date Button.DOWN 0 with
         new_date :=
           { (state_edit_date Button.DOWN 0).new_date with
             day := day_down true (state_edit_date Button.DOWN 0).new_date }
         menu_index := 351 }, []) ∧
    (fsm_menu true bus_up (state_edit_date Button.DOWN 1)).1.new_date.day = 31 - 1 ∧
    (fsm_menu true bus_up (state_edit_date Button.UP 3)).1.new_date.month
      = (if (12 : Int) = 12 then 1 else 12 + 1) ∧
    (fsm_menu true bus_up (state_edit_date Button.UP 9)).1.new_date.year
      = (if (2099 : Int) < 2099 then 2099 + 1 else 0) ∧
    fsm_menu true bus_up (state_edit_date Button.UP 5)
      = (state_edit_date Button.UP 5, []) ∧
    fsm_menu true bus_up { state_edit_time Button.UP 1 with menu_index := 341 }
      = ({ state_edit_time Button.UP 1 with menu_index := 342 }, []) ∧
    fsm_menu true bus_up { state_edit_date Button.UP 5 with menu_index := 351 }
      = ({ state_edit_date Button.UP 5 with menu_index := 352 }, []) :=
  ⟨(((C19_cursor_selects_field true bus_up (state_edit_time Button.UP 1)).1
      (by decide)).2.2.1 (by decide) (by decide) (by decide)).1 (by decide),
   (((C19_cursor_selects_field true bus_up (state_edit_time Button.DOWN 4)).1
      (by decide)).2.2.2 (by decide) (by decide) (by decide)).2.1 (by decide),
   ((C19_cursor_selects_field true bus_up (state_edit_time Button.DOWN 2)).1
      (by decide)).2.1 (by decide) (by decide),
   (((C19_cursor_selects_field true bus_up (state_edit_date Button.DOWN 0)).2.1
      (by decide)).1).2.2.2.1 (by decide) (by decide),
   (((C19_cursor_selects_field true bus_up (state_edit_date Button.DOWN 1)).2.1
      (by decide)).2.2.1 (by decide) (by decide) (by decide)).2.1 (by decide) (by decide),
   (((C19_cursor_selects_field true bus_up (state_edit_date Button.UP 3)).2.1
      (by decide)).2.2.2.1 (by decide) (by decide) (by decide)).1 (by decide),
   (((C19_cursor_selects_field true bus_up (state_edit_date Button.UP 9)).2.1
      (by decide)).2.2.2.2 (by decide) (by decide) (by decide)).1 (by decide),
   ((C19_cursor_selects_field true bus_up (state_edit_date Button.UP 5)).2.1
      (by decide)).2.1 (by decide) (by decide),
   (C19_cursor_selects_field true bus_up
      { state_edit_time Button.UP 1 with menu_index := 341 }).2.2.1 (by decide),
   (C19_cursor_selects_field true bus_up
      { state_edit_date Button.UP 5 with menu_index := 351 }).2.2.2 (by decide)⟩

/-! ## C20: reachable menu states and cursor range -/

theorem case_300_menu (sgn : Bool) (bus : Bus) (s : State) :
    (case_300 sgn bus s).1.menu_index = 310 ∨
      (case_300 sgn bus s).1.menu_index = s.menu_index := by
  have h := read_time_menu_index sgn bus s
  simp only [case_300]
  by_cases c : (read_time sgn bus s).1.button_pressed = Button.UP ∨
      (read_time sgn bus s).1.button_pressed = Button.DOWN
  · rw [if_pos c]; exact Or.inl rfl
  · rw [if_neg c]; exact Or.inr h

theorem case_menu_menu (up down : Int) (s : State) :
    ((case_menu up down s).menu_index = up ∨ (case_menu up down s).menu_index = down ∨
      (case_menu up down s).menu_index = 300 ∨
      (case_menu up down s).menu_index = s.menu_index) ∧
    (case_menu up down s).cursor = s.cursor := by
  obtain ⟨a_t, a_d, mi, n_t, n_d, bp, cu⟩ := s
  cases bp <;> simp [case_menu]

theorem case_340_menu (s : State) :
    (((case_340 s).menu_index = 330 ∨ (case_340 s).menu_index = 350 ∨
        (case_340 s).menu_index = 300 ∨ (case_340 s).menu_index = s.menu_index) ∧
      (case_340 s).cursor = s.cursor) ∨
    ((case_340 s).menu_index = 341 ∧ (case_340 s).cursor = 0) := by
  obtain ⟨a_t, a_d, mi, n_t, n_d, bp, cu⟩ := s
  cases bp <;> simp [case_340]

theorem case_350_menu (s : State) :
    (((case_350 s).menu_index = 340 ∨ (case_350 s).menu_index = 310 ∨
        (case_350 s).menu_index = 300 ∨ (case_350 s).menu_index = s.menu_index) ∧
      (case_350 s).cursor = s.cursor) ∨
    ((case_350 s).menu_index = 351 ∧ (case_350 s).cursor = 0) := by
  obtain ⟨a_t, a_d, mi, n_t, n_d, bp, cu⟩ := s
  cases bp <;> simp [case_350]

theorem case_342_menu (sgn : Bool) (s : State) (h0 : 0 ≤ s.cursor) (h1 : s.cursor ≤ 4) :
    ((case_342 sgn s).menu_index = s.menu_index ∨ (case_342 sgn s).menu_index = 341 ∨
      (case_342 sgn s).menu_index = 110) ∧
    0 ≤ (case_342 sgn s).cursor ∧ (case_342 sgn s).cursor ≤ 4 := by
  obtain ⟨a_t, a_d, mi, n_t, n_d, bp, cu⟩ := s
  simp only at h0 h1
  have e1 : toChar sgn (Int.tmod (cu + 1) 5) = (cu + 1) % 5 := by
    rw [tmod_nonneg _ _ (by omega) (by omega), toChar_small sgn _ (by omega) (by omega)]
  have e2 : toChar sgn (Int.tmod (cu + 5 - 1) 5) = (cu + 5 - 1) % 5 := by
    rw [tmod_nonneg _ _ (by omega) (by omega), toChar_small sgn _ (by omega) (by omega)]
  by_cases c01 : cu = 0 ∨ cu = 1 <;> by_cases c34 : cu = 3 ∨ cu = 4 <;>
    cases bp <;> simp only [case_342, c01, c34, e1, e2] <;> simp <;> omega

theorem case_352_menu (sgn : Bool) (s : State) (h0 : 0 ≤ s.cursor) (h1 : s.cursor ≤ 9) :
    ((case_352 sgn s).menu_index = s.menu_index ∨ (case_352 sgn s).menu_index = 351 ∨
      (case_352 sgn s).menu_index = 210) ∧
    0 ≤ (case_352 sgn s).cursor ∧ (case_352 sgn s).cursor ≤ 9 := by
  obtain ⟨a_t, a_d, mi, n_t, n_d, bp, cu⟩ := s
  simp only at h0 h1
  have e1 : toChar sgn (Int.tmod (cu + 1) 10) = (cu + 1) % 10 := by
    rw [tmod_nonneg _ _ (by omega) (by omega), toChar_small sgn _ (by omega) (by omega)]
  have e2 : toChar sgn (Int.tmod (cu + 10 - 1) 10) = (cu + 10 - 1) % 10 := by
    rw [tmod_nonneg _ _ (by omega) (by omega), toChar_small sgn _ (by omega) (by omega)]
  by_cases c01 : cu = 0 ∨ cu = 1 <;> by_cases c34 : cu = 3 ∨ cu = 4 <;>
    by_cases c69 : cu > 5 ∧ cu < 10 <;>
    cases bp <;> simp only [case_352, c01, c34, c69, e1, e2] <;> simp <;> omega

theorem menu_invariant_iff (s : State) :
    menu_invariant s ↔
      (s.menu_index = 300 ∨ s.menu_index = 310 ∨ s.menu_index = 320 ∨ s.menu_index = 330 ∨
        s.menu_index = 340 ∨ s.menu_index = 341 ∨ s.menu_index = 342 ∨ s.menu_index = 110 ∨
        s.menu_index = 350 ∨ s.menu_index = 351 ∨ s.menu_index = 352 ∨ s.menu_index = 210) ∧
      (s.menu_index = 341 ∨ s.menu_index = 342 → 0 ≤ s.cursor ∧ s.cursor ≤ 4) ∧
      (s.menu_index = 351 ∨ s.menu_index = 352 → 0 ≤ s.cursor ∧ s.cursor ≤ 9) := by
  simp only [menu_invariant, live_states, List.mem_cons, List.mem_singleton,
    List.not_mem_nil, or_false]

theorem fsm_menu_invariant (sgn : Bool) (bus : Bus) (s : State) (h : menu_invariant s) :
    menu_invariant (fsm_menu sgn bus s).1 := by
  rw [menu_invariant_iff] at h
  obtain ⟨hl, h4, h9⟩ := h
  apply fsm_menu_cases (fun r => menu_invariant r.1)
  · intro hm; omega
  · intro _; rw [menu_invariant_iff]; simp
  · intro hm; omega
  · intro _; rw [menu_invariant_iff]; simp
  · intro hm
    have hi := case_300_menu sgn bus s
    rw [menu_invariant_iff]
    clear hl h4 h9
    omega
  · intro hm
    obtain ⟨hi, -⟩ := case_menu_menu 350 320 s
    rw [menu_invariant_iff]
    simp only []
    clear hl h4 h9
    omega
  · intro hm
    obtain ⟨hi, -⟩ := case_menu_menu 310 330 s
    rw [menu_invariant_iff]
    simp only []
    clear hl h4 h9
    omega
  · intro hm
    obtain ⟨hi, -⟩ := case_menu_menu 320 340 s
    rw [menu_invariant_iff]
    simp only []
    clear hl h4 h9
    omega
  · intro hm
    have hi := case_340_menu s
    rw [menu_invariant_iff]
    simp only []
    clear hl h4 h9
    omega
  · intro hm
    have hc := h4 (Or.inl hm)
    rw [menu_invariant_iff]
    simp
    exact hc
  · intro hm
    have hi := case_342_menu sgn s (h4 (Or.inr hm)).1 (h4 (Or.inr hm)).2
    rw [menu_invariant_iff]
    simp only []
    clear hl h4 h9
    omega
  · intro hm
    have hi := case_350_menu s
    rw [menu_invariant_iff]
    simp only []
    clear hl h4 h9
    omega
  · intro hm
    have hc := h9 (Or.inl hm)
    rw [menu_invariant_iff]
    simp
    exact hc
  · intro hm
    have hi := case_352_menu sgn s (h9 (Or.inr hm)).1 (h9 (Or.inr hm)).2
    rw [menu_invariant_iff]
    simp only []
    clear hl h4 h9
    omega
  · intro hm
    rw [menu_invariant_iff]
    simp

theorem step_invariant (sgn : Bool) (e : Event) (s : State) (h : menu_invariant s) :
    menu_invariant (step sgn e s) := by
  cases e with
  | adc sample =>
    simp only [step]
    rw [ISR_ADC_frame]
    exact h
  | tick bus => exact fsm_menu_invariant sgn bus s h

theorem reachable_invariant (sgn : Bool) (s : State) (h : Reachable sgn s) :
    menu_invariant s := by
  induction h with
  | init => decide
  | next e s _ ih => exact step_invariant sgn e s ih

/-- C20: starting from the state left by `setup` (menu state 300, cursor 0), after any sequence
of samples and ticks under any bus answers the menu state is one of 300, 310, 320, 330, 340,
341, 342, 110, 350, 351, 352, 210; so the read-time state 100 and the read-date state 200 are
never entered and the default branch is never taken (the menu state is always a named one).
The cursor is in 0..4 whenever the state is 341 or 342 and in 0..9 whenever the state is 351 or
352.  A tick in state 200 would leave the machine there, whatever the button and the bus. -/
theorem C20_reachable_states (sgn : Bool) (s : State) (h : Reachable sgn s) :
    s.menu_index ∈ live_states ∧
    s.menu_index ≠ 100 ∧ s.menu_index ≠ 200 ∧ s.menu_index ∈ named_states ∧
    (s.menu_index = 341 ∨ s.menu_index = 342 → 0 ≤ s.cursor ∧ s.cursor ≤ 4) ∧
    (s.menu_index = 351 ∨ s.menu_index = 352 → 0 ≤ s.cursor ∧ s.cursor ≤ 9) ∧
    (∀ (bus : Bus) (t : State), t.menu_index = 200 → fsm_menu sgn bus t = (t, [])) := by
  have hi := reachable_invariant sgn s h
  have hl := hi.1
  rw [menu_invariant_iff] at hi
  obtain ⟨hm, h4, h9⟩ := hi
  refine ⟨hl, by omega, by omega, ?_, h4, h9, ?_⟩
  · simp only [named_states, List.mem_cons, List.mem_singleton, List.not_mem_nil, or_false]
    omega
  · intro bus t ht
    simp [fsm_menu, ht]

theorem C20_reachable_states_witness :
    Reachable true (run true trace_year_0 setup) ∧
    (run true trace_year_0 setup).menu_index ∈ live_states ∧
    (run true trace_year_0 setup).menu_index ≠ 100 ∧
    (run true trace_year_0 setup).menu_index ≠ 200 ∧
    fsm_menu true bus_up (state_at 200 Button.UP) = (state_at 200 Button.UP, []) :=
  ⟨reachable_run true trace_year_0 setup Reachable.init,
   (C20_reachable_states true _ (reachable_run true trace_year_0 setup Reachable.init)).1,
   (C20_reachable_states true _ (reachable_run true trace_year_0 setup Reachable.init)).2.1,
   (C20_reachable_states true _ (reachable_run true trace_year_0 setup Reachable.init)).2.2.1,
   (C20_reachable_states true _
      (reachable_run true trace_year_0 setup Reachable.init)).2.2.2.2.2.2
      bus_up (state_at 200 Button.UP) (by decide)⟩

/-! ## C21: SELECT held over four ticks -/

theorem fsm_menu_button (sgn : Bool) (bus : Bus) (s : State) :
    (fsm_menu sgn bus s).1.button_pressed = s.button_pressed := by
  apply fsm_menu_cases (fun r => r.1.button_pressed = s.button_pressed)
  · intro _; exact read_time_button sgn bus s
  · intro _; rfl
  · intro _; rfl
  · intro _; rfl
  · intro _; exact (case_300_frame sgn bus s).2.2.2.1
  · intro _; simp only []; rw [case_menu_frame]
  · intro _; simp only []; rw [case_menu_frame]
  · intro _; simp only []; rw [case_menu_frame]
  · intro _; exact (case_340_frame s).2.2.2
  · intro _; rfl
  · intro _; exact (case_342_frame sgn s).2.2.2.1
  · intro _; exact (case_350_frame s).2.2.2
  · intro _; rfl
  · intro _; exact (case_352_frame sgn s).2.2.2
  · intro _; rfl

theorem tick_340_select (sgn : Bool) (bus : Bus) (s : State)
    (hm : s.menu_index = 340) (hb : s.button_pressed = Button.SELECT) :
    fsm_menu sgn bus s =
      ({ s with new_time := s.actual_time, cursor := 0, menu_index := 341 }, []) := by
  simp [fsm_menu, hm, case_340, hb]

theorem tick_342_select (sgn : Bool) (bus : Bus) (s : State)
    (hm : s.menu_index = 342) (hb : s.button_pressed = Button.SELECT) :
    fsm_menu sgn bus s = ({ s with menu_index := 110 }, []) := by
  simp [fsm_menu, hm, case_342, hb]

theorem tick_110 (sgn : Bool) (bus : Bus) (s : State) (hm : s.menu_index = 110) :
    fsm_menu sgn bus s = ({ s with menu_index := 300 }, write_time sgn bus s) := by
  simp [fsm_menu, hm]

theorem write_time_bytes (sgn : Bool) (bus : Bus) (s : State)
    (hs : toChar sgn bus.start_status = 0) :
    written_bytes (write_time sgn bus s) =
      [0, 0, toU8 (bcd_encode sgn s.new_time.minutes),
        toU8 (bcd_encode sgn s.new_time.hours)] := by
  simp [write_time, hs, written_bytes, toU8]

theorem toU8_bcd_encode (sgn : Bool) (v : Int) (h0 : 0 ≤ v) (h1 : v ≤ 59) :
    toU8 (bcd_encode sgn v) = (bcd_spec v.toNat : Int) := by
  cases sgn <;> interval_cases v <;> rfl

/-- C21: for every state in the SetTime navigation state (340) with button symbol SELECT, four
consecutive ticks (any bus answers) take the menu state through 341, 342 and 110 to 300.
`fsm_menu` never changes the button symbol, in any state, so SELECT is still the symbol at each
of these ticks, and a further SELECT sample between them changes nothing.  The first tick
loads `actual_time` into the edit buffer and sets the cursor to 0; the next two change only the
menu state, so at the commit tick the edit buffer equals the `actual_time` loaded on entry; the
first three ticks make no bus call.  When the bus start of the commit tick succeeds, the bytes
written are 0x00, 0, the encoded minutes and the encoded hours of that `actual_time` (for
minutes in 0..59 and hours in 0..23 their BCD encodings `((v/10) << 4) | (v % 10)`): the
seconds register is written with 0 although nothing was adjusted. -/
theorem C21_held_select_commits (sgn : Bool) (b1 b2 b3 b4 : Bus) (s : State)
    (hm : s.menu_index = 340) (hb : s.button_pressed = Button.SELECT) :
    run sgn (ticks [b1]) s =
      { s with new_time := s.actual_time, cursor := 0, menu_index := 341 } ∧
    run sgn (ticks [b1, b2]) s =
      { s with new_time := s.actual_time, cursor := 0, menu_index := 342 } ∧
    run sgn (ticks [b1, b2, b3]) s =
      { s with new_time := s.actual_time, cursor := 0, menu_index := 110 } ∧
    run sgn (ticks [b1, b2, b3, b4]) s =
      { s with new_time := s.actual_time, cursor := 0, menu_index := 300 } ∧
    (∀ (bus : Bus) (t : State), (fsm_menu sgn bus t).1.button_pressed = t.button_pressed) ∧
    (∀ (sample : Nat) (t : State), t.button_pressed = Button.SELECT →
      631 ≤ sample → sample ≤ 671 → ISR_ADC sample t = t) ∧
    (run sgn (ticks [b1, b2, b3]) s).new_time = s.actual_time ∧
    (fsm_menu sgn b1 s).2 = [] ∧
    (fsm_menu sgn b2 (run sgn (ticks [b1]) s)).2 = [] ∧
    (fsm_menu sgn b3 (run sgn (ticks [b1, b2]) s)).2 = [] ∧
    (toChar sgn b4.start_status = 0 →
      written_bytes (fsm_menu sgn b4 (run sgn (ticks [b1, b2, b3]) s)).2 =
        [0x00, 0, toU8 (bcd_encode sgn s.actual_time.minutes),
          toU8 (bcd_encode sgn s.actual_time.hours)]) ∧
    (toChar sgn b4.start_status = 0 →
      0 ≤ s.actual_time.minutes → s.actual_time.minutes ≤ 59 →
      0 ≤ s.actual_time.hours → s.actual_time.hours ≤ 23 →
      written_bytes (fsm_menu sgn b4 (run sgn (ticks [b1, b2, b3]) s)).2 =
        [0x00, 0, (bcd_spec s.actual_time.minutes.toNat : Int),
          (bcd_spec s.actual_time.hours.toNat : Int)]) := by
  have t1 := tick_340_select sgn b1 s hm hb
  have t2 := tick_341 sgn b2
    { s with new_time := s.actual_time, cursor := 0, menu_index := 341 } rfl
  have t3 := tick_342_select sgn b3
    { s with new_time := s.actual_time, cursor := 0, menu_index := 342 } rfl hb
  have t4 := tick_110 sgn b4
    { s with new_time := s.actual_time, cursor := 0, menu_index := 110 } rfl
  have r1 : run sgn (ticks [b1]) s =
      { s with new_time := s.actual_time, cursor := 0, menu_index := 341 } := by
    simp only [ticks, List.map_cons, List.map_nil, run, step, t1]
  have r2 : run sgn (ticks [b1, b2]) s =
      { s with new_time := s.actual_time, cursor := 0, menu_index := 342 } := by
    simp only [ticks, List.map_cons, List.map_nil, run, step, t1, t2]
  have r3 : run sgn (ticks [b1, b2, b3]) s =
      { s with new_time := s.actual_time, cursor := 0, menu_index := 110 } := by
    simp only [ticks, List.map_cons, List.map_nil, run, step, t1, t2, t3]
  have r4 : run sgn (ticks [b1, b2, b3, b4]) s =
      { s with new_time := s.actual_time, cursor := 0, menu_index := 300 } := by
    simp only [ticks, List.map_cons, List.map_nil, run, step, t1, t2, t3, t4]
  refine ⟨r1, r2, r3, r4, fsm_menu_button sgn, ?_, ?_, ?_, ?_, ?_, ?_, ?_⟩
  · intro sample t ht h0 h1
    have e : sample % 65536 = sample := by omega
    obtain ⟨a_t, a_d, mi, n_t, n_d, bp, cu⟩ := t
    simp only at ht
    subst ht
    simp only [ISR_ADC, e]
    rw [if_neg (by omega), if_neg (by omega), if_neg (by omega), if_neg (by omega),
      if_pos (by omega)]
  · rw [r3]
  · rw [t1]
  · rw [r1, t2]
  · rw [r2, t3]
  · intro hs
    rw [r3, t4]
    exact write_time_bytes sgn b4 _ hs
  · intro hs hm0 hm1 hh0 hh1
    rw [r3, t4]
    rw [← toU8_bcd_encode sgn _ hm0 hm1, ← toU8_bcd_encode sgn _ hh0 (by omega)]
    exact write_time_bytes sgn b4 _ hs

theorem C21_held_select_commits_witness :
    state_hold_select.menu_index = 340 ∧
    state_hold_select.button_pressed = Button.SELECT ∧
    run true (ticks [bus_up, bus_up, bus_up, bus_up]) state_hold_select =
      { state_hold_select with
        new_time := state_hold_select.actual_time, cursor := 0, menu_index := 300 } ∧
    written_bytes
        (fsm_menu true bus_up (run true (ticks [bus_up, bus_up, bus_up]) state_hold_select)).2
      = [0x00, 0, 0x08, 0x07] :=
  ⟨by decide, by decide,
   (C21_held_select_commits true bus_up bus_up bus_up bus_up state_hold_select
      (by decide) (by decide)).2.2.2.1,
   (C21_held_select_commits true bus_up bus_up bus_up bus_up state_hold_select
      (by decide) (by decide)).2.2.2.2.2.2.2.2.2.2.2
      (by decide) (by decide) (by decide) (by decide) (by decide)⟩

end Cproject
